import Mathlib

/-!
Shallow embedding of the shlokav11 backend (src/backend/server.py): a small
read-only content API over a document store.  Documents are modelled as
association lists of field name / value pairs; the four store collections
(emotions, moods, guidances, chapters) are lists of documents in natural
(insertion) order.  The startup seed reconciler `startup_db`, the identifier
normalizer `str_id`, and the four query handlers are translated directly from
the source; the literal seed datasets are transcribed verbatim.
-/

namespace Shloka

set_option maxRecDepth 100000

/-- A scalar document value: a Python/BSON string, an int, or some other
scalar such as a `bson.ObjectId` (`pOid`), carried by its `str()` rendering.
The `int`/`str` split is exactly the distinction `str_id` tests with
`isinstance(obj[...], (int, str))`. -/
inductive Prim where
  | pStr : String → Prim
  | pInt : Int → Prim
  | pOid : String → Prim
deriving DecidableEq

/-- A flat subdocument, as used for the entries of a chapter verse list
(every field of those entries is a string in the dataset). -/
abbrev SubDoc := List (String × Prim)

/-- A document field value: a scalar, or an array of flat subdocuments (the
`verses` field of a chapter).  No other value shapes occur in this service. -/
inductive BVal where
  | prim : Prim → BVal
  | arr : List SubDoc → BVal
deriving DecidableEq

/-- A document: an ordered association list of fields, modelling a Python
dict (insertion-ordered, unique keys). -/
abbrev Doc := List (String × BVal)

/-- Shorthand for a string field value. -/
def vs (s : String) : BVal := BVal.prim (Prim.pStr s)

/-- Shorthand for an integer field value. -/
def vi (n : Int) : BVal := BVal.prim (Prim.pInt n)

/-- Field lookup, first occurrence (`obj[key]` / `key in obj`). -/
def getField : Doc → String → Option BVal
  | [], _ => none
  | (k, w) :: rest, key => if k = key then some w else getField rest key

/-- Python `key in obj`. -/
def hasField (d : Doc) (key : String) : Bool := (getField d key).isSome

/-- Python `obj[key] = v`: update in place if the key exists (keeping its
position), append otherwise. -/
def setField : Doc → String → BVal → Doc
  | [], key, v => [(key, v)]
  | (k, w) :: rest, key, v =>
    if k = key then (k, v) :: rest else (k, w) :: setField rest key v

/-- Python `str()` of a primitive inside a `repr` context (used only for the
array rendering below); strings are wrapped in quotes as `repr` does.
Embedded quotes inside the string are not re-escaped; no claim depends on
this rendering. -/
def pyReprPrim : Prim → String
  | Prim.pStr s => "\x27" ++ s ++ "\x27"
  | Prim.pInt n => toString n
  | Prim.pOid h => "ObjectId(\x27" ++ h ++ "\x27)"

/-- Python `repr` of one flat subdocument. -/
def pyReprSubDoc (d : SubDoc) : String :=
  "\x7b" ++ String.intercalate ", " (d.map (fun kv => "\x27" ++ kv.1 ++ "\x27: " ++ pyReprPrim kv.2)) ++ "\x7d"

/-- Python `str()` of a document value: identity on strings, decimal
rendering of ints, the hex string of an `ObjectId`, and the list `repr` for
an array of subdocuments. -/
def pyStr : BVal → String
  | BVal.prim (Prim.pStr s) => s
  | BVal.prim (Prim.pInt n) => toString n
  | BVal.prim (Prim.pOid h) => h
  | BVal.arr ds => "[" ++ String.intercalate ", " (ds.map pyReprSubDoc) ++ "]"

/-- Embedding of `str_id` (server.py lines 28-35) on a document argument:
if the document is truthy and has an `_id` field, keep the `_id` as-is when
it is an int or a string, otherwise replace it by its `str()` rendering. -/
def str_id_doc (obj : Doc) : Doc :=
  if !obj.isEmpty && hasField obj "_id" then
    match getField obj "_id" with
    | some (BVal.prim (Prim.pStr _)) => obj
    | some (BVal.prim (Prim.pInt _)) => obj
    | some v => setField obj "_id" (vs (pyStr v))
    | none => obj
  else obj

/-- Embedding of `str_id` including the `None` argument case: `str_id(None)`
falls through the `if obj and ...` guard and returns `None`. -/
def str_id : Option Doc → Option Doc
  | none => none
  | some obj => some (str_id_doc obj)

/-- A Mongo single-field equality filter `{key: v}` applied to one document.
In this service every filter value is a scalar and every filtered field holds
a scalar in canonical data; an array field (of subdocuments) can never equal
or contain a scalar filter value, so plain equality of the stored value
coincides with Mongo match semantics on this value universe. -/
def matchesField (d : Doc) (key : String) (v : BVal) : Bool :=
  getField d key == some v

/-- `collection.find({key: v})`: all matching documents in natural order. -/
def findAll (coll : List Doc) (key : String) (v : BVal) : List Doc :=
  coll.filter (fun d => matchesField d key v)

/-- `cursor.to_list(n)`: at most the first `n` documents. -/
def toList (n : Nat) (l : List Doc) : List Doc := l.take n

/-- `collection.find_one({key: v})`: the first matching document, if any. -/
def findOne (coll : List Doc) (key : String) (v : BVal) : Option Doc :=
  (findAll coll key v).head?

/-- Type rank for sort-key comparison, following the BSON type bracket order
for the types of this universe; a missing sort field sorts lowest (as null
does in Mongo). -/
def bsonTypeRank : Option BVal → Nat
  | none => 0
  | some (BVal.prim (Prim.pInt _)) => 1
  | some (BVal.prim (Prim.pStr _)) => 2
  | some (BVal.arr _) => 3
  | some (BVal.prim (Prim.pOid _)) => 4

/-- Sort-key comparison: numeric on ints, lexicographic on strings and
object ids, by type rank across types.  Two arrays compare as equal (Mongo
compares them element-wise, but no route of this service sorts on an
array-valued field, and a stable sort keeps their relative order). -/
def bsonKeyLe (a b : Option BVal) : Bool :=
  match a, b with
  | some (BVal.prim (Prim.pInt m)), some (BVal.prim (Prim.pInt n)) => decide (m ≤ n)
  | some (BVal.prim (Prim.pStr s)), some (BVal.prim (Prim.pStr t)) => decide (s ≤ t)
  | some (BVal.prim (Prim.pOid s)), some (BVal.prim (Prim.pOid t)) => decide (s ≤ t)
  | _, _ => decide (bsonTypeRank a ≤ bsonTypeRank b)

/-- Stable insertion of a document into a list sorted ascending on `key`. -/
def insertByKey (key : String) (d : Doc) : List Doc → List Doc
  | [] => [d]
  | e :: rest =>
    if bsonKeyLe (getField e key) (getField d key) then e :: insertByKey key d rest
    else d :: e :: rest

/-- `cursor.sort(key, 1)`: stable ascending sort on the given field. -/
def sortByKey (key : String) : List Doc → List Doc
  | [] => []
  | d :: rest => insertByKey key d (sortByKey key rest)
/-- The literal `emotions` list from `startup_db` (server.py lines 92-170): 11 emotion documents. -/
def emotions : List Doc := [
  [("_id", vs "fear"),
   ("name_english", vs "Fear"),
   ("name_sanskrit", vs "भय (Bhaya)"),
   ("description", vs "When you feel afraid, anxious, or worried about the future"),
   ("icon", vs "😰")],
  [("_id", vs "anger"),
   ("name_english", vs "Anger"),
   ("name_sanskrit", vs "क्रोध (Krodha)"),
   ("description", vs "When you feel frustrated, irritated, or filled with rage"),
   ("icon", vs "😠")],
  [("_id", vs "grief"),
   ("name_english", vs "Grief"),
   ("name_sanskrit", vs "शोक (Shoka)"),
   ("description", vs "When you feel sad, lost, or mourning a loss"),
   ("icon", vs "😢")],
  [("_id", vs "confusion"),
   ("name_english", vs "Confusion"),
   ("name_sanskrit", vs "मोह (Moha)"),
   ("description", vs "When you feel uncertain, lost, or unable to decide"),
   ("icon", vs "😕")],
  [("_id", vs "detachment"),
   ("name_english", vs "Detachment"),
   ("name_sanskrit", vs "वैराग्य (Vairagya)"),
   ("description", vs "When you feel disconnected, empty, or without purpose"),
   ("icon", vs "😶")],
  [("_id", vs "joy"),
   ("name_english", vs "Joy"),
   ("name_sanskrit", vs "आनंद (Ananda)"),
   ("description", vs "When you feel content, peaceful, or grateful for life\x27s blessings"),
   ("icon", vs "😊")],
  [("_id", vs "doubt"),
   ("name_english", vs "Doubt"),
   ("name_sanskrit", vs "संशय (Sanshaya)"),
   ("description", vs "When you question your faith, beliefs, or the path you\x27re on"),
   ("icon", vs "🤔")],
  [("_id", vs "pride"),
   ("name_english", vs "Pride"),
   ("name_sanskrit", vs "अहंकार (Ahamkara)"),
   ("description", vs "When you feel superior, self-important, or overly confident"),
   ("icon", vs "😤")],
  [("_id", vs "desire"),
   ("name_english", vs "Desire"),
   ("name_sanskrit", vs "काम (Kama)"),
   ("description", vs "When you experience strong cravings, wants, or material attachments"),
   ("icon", vs "🤲")],
  [("_id", vs "envy"),
   ("name_english", vs "Envy"),
   ("name_sanskrit", vs "ईर्ष्या (Irshya)"),
   ("description", vs "When you compare yourself to others or feel jealous of their fortune"),
   ("icon", vs "😒")],
  [("_id", vs "despair"),
   ("name_english", vs "Despair"),
   ("name_sanskrit", vs "निराशा (Nirasha)"),
   ("description", vs "When you feel hopeless, defeated, or without direction in life"),
   ("icon", vs "😞")]
]

/-- The literal `moods` list from `startup_db` (server.py lines 173-261): 66 mood documents, 6 per emotion. -/
def moods : List Doc := [
  [("_id", vs "fear_future"),
   ("emotion_id", vs "fear"),
   ("name", vs "Fear of the Future"),
   ("description", vs "Worried about what tomorrow will bring")],
  [("_id", vs "fear_death"),
   ("emotion_id", vs "fear"),
   ("name", vs "Fear of Death"),
   ("description", vs "Anxious about mortality and the unknown")],
  [("_id", vs "fear_failure"),
   ("emotion_id", vs "fear"),
   ("name", vs "Fear of Failure"),
   ("description", vs "Afraid of not being good enough")],
  [("_id", vs "fear_illness"),
   ("emotion_id", vs "fear"),
   ("name", vs "Fear of Illness"),
   ("description", vs "Worried about health and disease")],
  [("_id", vs "fear_abandonment"),
   ("emotion_id", vs "fear"),
   ("name", vs "Fear of Being Alone"),
   ("description", vs "Afraid of losing loved ones")],
  [("_id", vs "fear_change"),
   ("emotion_id", vs "fear"),
   ("name", vs "Fear of Change"),
   ("description", vs "Scared of life\x27s transitions")],
  [("_id", vs "anger_injustice"),
   ("emotion_id", vs "anger"),
   ("name", vs "Anger at Injustice"),
   ("description", vs "Upset about unfair treatment")],
  [("_id", vs "anger_self"),
   ("emotion_id", vs "anger"),
   ("name", vs "Anger at Myself"),
   ("description", vs "Frustrated with my own actions")],
  [("_id", vs "anger_world"),
   ("emotion_id", vs "anger"),
   ("name", vs "Anger at the World"),
   ("description", vs "Mad at how things are")],
  [("_id", vs "anger_betrayal"),
   ("emotion_id", vs "anger"),
   ("name", vs "Anger at Betrayal"),
   ("description", vs "Hurt by broken trust")],
  [("_id", vs "anger_powerless"),
   ("emotion_id", vs "anger"),
   ("name", vs "Anger at Helplessness"),
   ("description", vs "Frustrated by inability to help")],
  [("_id", vs "anger_disrespect"),
   ("emotion_id", vs "anger"),
   ("name", vs "Anger at Disrespect"),
   ("description", vs "Offended by lack of regard")],
  [("_id", vs "grief_loss"),
   ("emotion_id", vs "grief"),
   ("name", vs "Loss of a Loved One"),
   ("description", vs "Missing someone who has passed")],
  [("_id", vs "grief_change"),
   ("emotion_id", vs "grief"),
   ("name", vs "Loss of What Was"),
   ("description", vs "Mourning how things used to be")],
  [("_id", vs "grief_health"),
   ("emotion_id", vs "grief"),
   ("name", vs "Loss of Health"),
   ("description", vs "Struggling with physical decline")],
  [("_id", vs "grief_dream"),
   ("emotion_id", vs "grief"),
   ("name", vs "Loss of a Dream"),
   ("description", vs "Mourning unfulfilled hopes")],
  [("_id", vs "grief_relationship"),
   ("emotion_id", vs "grief"),
   ("name", vs "Loss of Relationship"),
   ("description", vs "Grieving a ended connection")],
  [("_id", vs "grief_youth"),
   ("emotion_id", vs "grief"),
   ("name", vs "Loss of Youth"),
   ("description", vs "Sadness about aging")],
  [("_id", vs "confusion_purpose"),
   ("emotion_id", vs "confusion"),
   ("name", vs "Lost About Purpose"),
   ("description", vs "Unsure why I am here")],
  [("_id", vs "confusion_choice"),
   ("emotion_id", vs "confusion"),
   ("name", vs "Unable to Decide"),
   ("description", vs "Don\x27t know what to do")],
  [("_id", vs "confusion_meaning"),
   ("emotion_id", vs "confusion"),
   ("name", vs "Questioning Meaning"),
   ("description", vs "Wondering if life has meaning")],
  [("_id", vs "confusion_identity"),
   ("emotion_id", vs "confusion"),
   ("name", vs "Lost Sense of Self"),
   ("description", vs "Not sure who I am anymore")],
  [("_id", vs "confusion_direction"),
   ("emotion_id", vs "confusion"),
   ("name", vs "No Clear Path"),
   ("description", vs "Don\x27t know where to go")],
  [("_id", vs "confusion_values"),
   ("emotion_id", vs "confusion"),
   ("name", vs "Conflicting Beliefs"),
   ("description", vs "Torn between different values")],
  [("_id", vs "detachment_loneliness"),
   ("emotion_id", vs "detachment"),
   ("name", vs "Feeling Alone"),
   ("description", vs "Disconnected from others")],
  [("_id", vs "detachment_emptiness"),
   ("emotion_id", vs "detachment"),
   ("name", vs "Inner Emptiness"),
   ("description", vs "Nothing brings joy anymore")],
  [("_id", vs "detachment_world"),
   ("emotion_id", vs "detachment"),
   ("name", vs "Withdrawn from Life"),
   ("description", vs "Don\x27t care about worldly things")],
  [("_id", vs "detachment_numb"),
   ("emotion_id", vs "detachment"),
   ("name", vs "Feeling Numb"),
   ("description", vs "Can\x27t feel emotions anymore")],
  [("_id", vs "detachment_apathy"),
   ("emotion_id", vs "detachment"),
   ("name", vs "Lost Interest"),
   ("description", vs "Nothing seems important")],
  [("_id", vs "detachment_tired"),
   ("emotion_id", vs "detachment"),
   ("name", vs "Weary of Life"),
   ("description", vs "Exhausted from living")],
  [("_id", vs "joy_gratitude"),
   ("emotion_id", vs "joy"),
   ("name", vs "Feeling Grateful"),
   ("description", vs "Thankful for life\x27s blessings")],
  [("_id", vs "joy_peace"),
   ("emotion_id", vs "joy"),
   ("name", vs "Inner Peace"),
   ("description", vs "Content and at ease with life")],
  [("_id", vs "joy_acceptance"),
   ("emotion_id", vs "joy"),
   ("name", vs "Accepting What Is"),
   ("description", vs "At peace with how things are")],
  [("_id", vs "joy_serenity"),
   ("emotion_id", vs "joy"),
   ("name", vs "Deep Serenity"),
   ("description", vs "Calm amidst life\x27s storms")],
  [("_id", vs "joy_connection"),
   ("emotion_id", vs "joy"),
   ("name", vs "Spiritual Connection"),
   ("description", vs "Feeling close to the divine")],
  [("_id", vs "joy_wisdom"),
   ("emotion_id", vs "joy"),
   ("name", vs "Blessed with Wisdom"),
   ("description", vs "Understanding life\x27s lessons")],
  [("_id", vs "doubt_faith"),
   ("emotion_id", vs "doubt"),
   ("name", vs "Questioning Faith"),
   ("description", vs "Unsure if God exists or cares")],
  [("_id", vs "doubt_teachings"),
   ("emotion_id", vs "doubt"),
   ("name", vs "Doubting the Path"),
   ("description", vs "Wondering if these teachings are true")],
  [("_id", vs "doubt_self"),
   ("emotion_id", vs "doubt"),
   ("name", vs "Doubting Myself"),
   ("description", vs "Not sure if I\x27m doing things right")],
  [("_id", vs "doubt_goodness"),
   ("emotion_id", vs "doubt"),
   ("name", vs "Doubting Goodness"),
   ("description", vs "Questioning if good prevails")],
  [("_id", vs "doubt_purpose"),
   ("emotion_id", vs "doubt"),
   ("name", vs "Doubting Life\x27s Purpose"),
   ("description", vs "Wondering if anything matters")],
  [("_id", vs "doubt_karma"),
   ("emotion_id", vs "doubt"),
   ("name", vs "Doubting Justice"),
   ("description", vs "Questioning if actions have consequences")],
  [("_id", vs "pride_achievement"),
   ("emotion_id", vs "pride"),
   ("name", vs "Pride in Success"),
   ("description", vs "Feeling superior due to accomplishments")],
  [("_id", vs "pride_knowledge"),
   ("emotion_id", vs "pride"),
   ("name", vs "Pride in Knowledge"),
   ("description", vs "Thinking I know more than others")],
  [("_id", vs "pride_status"),
   ("emotion_id", vs "pride"),
   ("name", vs "Pride in Position"),
   ("description", vs "Feeling important due to my status")],
  [("_id", vs "pride_appearance"),
   ("emotion_id", vs "pride"),
   ("name", vs "Pride in Appearance"),
   ("description", vs "Vain about how I look")],
  [("_id", vs "pride_virtue"),
   ("emotion_id", vs "pride"),
   ("name", vs "Pride in Righteousness"),
   ("description", vs "Feeling morally superior")],
  [("_id", vs "pride_independence"),
   ("emotion_id", vs "pride"),
   ("name", vs "Pride in Self-Sufficiency"),
   ("description", vs "Refusing to need anyone")],
  [("_id", vs "desire_wealth"),
   ("emotion_id", vs "desire"),
   ("name", vs "Craving Wealth"),
   ("description", vs "Strong desire for money and possessions")],
  [("_id", vs "desire_pleasure"),
   ("emotion_id", vs "desire"),
   ("name", vs "Seeking Pleasure"),
   ("description", vs "Always wanting more enjoyment")],
  [("_id", vs "desire_control"),
   ("emotion_id", vs "desire"),
   ("name", vs "Need to Control"),
   ("description", vs "Wanting things to go my way")],
  [("_id", vs "desire_recognition"),
   ("emotion_id", vs "desire"),
   ("name", vs "Craving Recognition"),
   ("description", vs "Wanting praise and attention")],
  [("_id", vs "desire_comfort"),
   ("emotion_id", vs "desire"),
   ("name", vs "Attached to Comfort"),
   ("description", vs "Avoiding any discomfort")],
  [("_id", vs "desire_security"),
   ("emotion_id", vs "desire"),
   ("name", vs "Craving Security"),
   ("description", vs "Needing guarantees and certainty")],
  [("_id", vs "envy_success"),
   ("emotion_id", vs "envy"),
   ("name", vs "Envying Others\x27 Success"),
   ("description", vs "Jealous of what others have achieved")],
  [("_id", vs "envy_happiness"),
   ("emotion_id", vs "envy"),
   ("name", vs "Envying Others\x27 Joy"),
   ("description", vs "Wishing I had their peace and happiness")],
  [("_id", vs "envy_fortune"),
   ("emotion_id", vs "envy"),
   ("name", vs "Envying Others\x27 Fortune"),
   ("description", vs "Comparing my life unfavorably to theirs")],
  [("_id", vs "envy_youth"),
   ("emotion_id", vs "envy"),
   ("name", vs "Envying the Young"),
   ("description", vs "Wishing I had their energy and time")],
  [("_id", vs "envy_family"),
   ("emotion_id", vs "envy"),
   ("name", vs "Envying Others\x27 Families"),
   ("description", vs "Jealous of their relationships")],
  [("_id", vs "envy_health"),
   ("emotion_id", vs "envy"),
   ("name", vs "Envying Others\x27 Health"),
   ("description", vs "Wishing I had their vitality")],
  [("_id", vs "despair_effort"),
   ("emotion_id", vs "despair"),
   ("name", vs "Feeling It\x27s Pointless"),
   ("description", vs "Nothing I do seems to matter")],
  [("_id", vs "despair_alone"),
   ("emotion_id", vs "despair"),
   ("name", vs "No One Understands"),
   ("description", vs "Feeling isolated in my struggles")],
  [("_id", vs "despair_future"),
   ("emotion_id", vs "despair"),
   ("name", vs "No Hope for Tomorrow"),
   ("description", vs "Can\x27t see things getting better")],
  [("_id", vs "despair_burden"),
   ("emotion_id", vs "despair"),
   ("name", vs "Too Heavy to Bear"),
   ("description", vs "Life feels overwhelming")],
  [("_id", vs "despair_mistakes"),
   ("emotion_id", vs "despair"),
   ("name", vs "Haunted by Regrets"),
   ("description", vs "Can\x27t forgive past errors")],
  [("_id", vs "despair_meaning"),
   ("emotion_id", vs "despair"),
   ("name", vs "Life Feels Meaningless"),
   ("description", vs "Everything seems empty")]
]

/-- The literal `guidances` list from `startup_db` (server.py lines 264-860): 66 guidance documents. -/
def guidances : List Doc := [
  [("_id", vs "guidance_fear_future"),
   ("mood_id", vs "fear_future"),
   ("title", vs "Focus on Your Duty, Not Results"),
   ("verse_reference", vs "Bhagavad Gita 2.47"),
   ("sanskrit_verse", vs "कर्मण्येवाधिकारस्ते मा फलेषु कदाचन।\nमा कर्मफलहेतुर्भूर्मा ते सङ्गोऽस्त्वकर्मणि॥"),
   ("english_translation", vs "You have the right to perform your prescribed duties, but you are not entitled to the fruits of your actions. Never consider yourself to be the cause of the results, nor be attached to inaction."),
   ("guidance_text", vs "Krishna teaches that worry about tomorrow comes from attachment to results. Do your duty today with care, but release anxiety about outcomes. The future is shaped by present action, not by worry. Your power lies in what you do now, not in controlling what comes next.")],
  [("_id", vs "guidance_fear_death"),
   ("mood_id", vs "fear_death"),
   ("title", vs "The Soul is Eternal"),
   ("verse_reference", vs "Bhagavad Gita 2.20"),
   ("sanskrit_verse", vs "न जायते म्रियते वा कदाचिन्नायं भूत्वा भविता वा न भूयः।\nअजो नित्यः शाश्वतोऽयं पुराणो न हन्यते हन्यमाने शरीरे॥"),
   ("english_translation", vs "The soul is never born and never dies. It is unborn, eternal, ever-existing, and primeval. The soul is not slain when the body is slain."),
   ("guidance_text", vs "Death is only the body changing form, like removing old clothes. Your true self—the soul—is eternal and cannot be destroyed. Understanding this truth brings peace. What you truly are has always existed and will always exist.")],
  [("_id", vs "guidance_anger_injustice"),
   ("mood_id", vs "anger_injustice"),
   ("title", vs "Anger Destroys Wisdom"),
   ("verse_reference", vs "Bhagavad Gita 2.63"),
   ("sanskrit_verse", vs "क्रोधाद्भवति संमोहः संमोहात्स्मृतिविभ्रमः।\nस्मृतिभ्रंशाद् बुद्धिनाशो बुद्धिनाशात्प्रणश्यति॥"),
   ("english_translation", vs "From anger comes delusion; from delusion, confusion of memory; from confusion of memory, loss of intelligence; and from loss of intelligence, one perishes."),
   ("guidance_text", vs "When we see injustice, anger is natural. But Krishna warns that unchecked anger clouds our judgment and leads to more suffering. Channel your sense of justice into wise action, not destructive rage. True strength lies in responding with clarity, not reacting in fury.")],
  [("_id", vs "guidance_grief_loss"),
   ("mood_id", vs "grief_loss"),
   ("title", vs "All Beings Follow Nature\x27s Way"),
   ("verse_reference", vs "Bhagavad Gita 2.27"),
   ("sanskrit_verse", vs "जातस्य हि ध्रुवो मृत्युर्ध्रुवं जन्म मृतस्य च।\nतस्मादपरिहार्येऽर्थे न त्वं शोचितुमर्हसि॥"),
   ("english_translation", vs "For one who has taken birth, death is certain; and for one who has died, birth is certain. Therefore, you should not lament over the inevitable."),
   ("guidance_text", vs "Your grief honors the love you shared. Krishna does not ask you to stop feeling—he acknowledges that loss is part of life\x27s cycle. Allow yourself to grieve, but know that your loved one\x27s journey continues. What was real in your relationship—the love—remains eternal.")],
  [("_id", vs "guidance_confusion_purpose"),
   ("mood_id", vs "confusion_purpose"),
   ("title", vs "Surrender to the Divine Will"),
   ("verse_reference", vs "Bhagavad Gita 18.66"),
   ("sanskrit_verse", vs "सर्वधर्मान्परित्यज्य मामेकं शरणं व्रज।\nअहं त्वां सर्वपापेभ्यो मोक्षयिष्यामि मा शुचः॥"),
   ("english_translation", vs "Abandon all varieties of dharma and just surrender unto Me. I shall deliver you from all sinful reactions. Do not fear."),
   ("guidance_text", vs "When you cannot see the path, trust that there is a larger design. Your purpose unfolds not through perfect understanding, but through sincere effort and faith. Do your best each day, and trust that the divine guides those who are open to guidance.")],
  [("_id", vs "guidance_detachment_loneliness"),
   ("mood_id", vs "detachment_loneliness"),
   ("title", vs "You Are Never Alone"),
   ("verse_reference", vs "Bhagavad Gita 9.29"),
   ("sanskrit_verse", vs "समोऽहं सर्वभूतेषु न मे द्वेष्योऽस्ति न प्रियः।\nये भजन्ति तु मां भक्त्या मयि ते तेषु चाप्यहम्॥"),
   ("english_translation", vs "I am equal to all beings; none are hateful or dear to Me. But those who worship Me with devotion are in Me, and I am in them."),
   ("guidance_text", vs "Loneliness comes from feeling separate. Krishna reveals that the divine presence dwells within you and all beings. You are connected to everything through this universal spirit. Even in solitude, you are held by something greater than yourself.")],
  [("_id", vs "guidance_joy_gratitude"),
   ("mood_id", vs "joy_gratitude"),
   ("title", vs "Offer Your Joy to the Divine"),
   ("verse_reference", vs "Bhagavad Gita 9.26"),
   ("sanskrit_verse", vs "पत्रं पुष्पं फलं तोयं यो मे भक्त्या प्रयच्छति।\nतदहं भक्त्युपहृतमश्नामि प्रयतात्मनः॥"),
   ("english_translation", vs "Whoever offers Me with devotion a leaf, a flower, a fruit, or water - I accept that offering of love from the pure-hearted."),
   ("guidance_text", vs "Your gratitude is itself a form of worship. Krishna teaches that the simplest offering, given with love, reaches the divine. When you feel thankful, recognize that joy as a gift. Share it, express it, and let it deepen your connection to all that sustains you.")],
  [("_id", vs "guidance_joy_peace"),
   ("mood_id", vs "joy_peace"),
   ("title", vs "The Peace Beyond Understanding"),
   ("verse_reference", vs "Bhagavad Gita 2.71"),
   ("sanskrit_verse", vs "विहाय कामान्यः सर्वान्पुमांश्चरति निःस्पृहः।\nनिर्ममो निरहङ्कारः स शान्तिमधिगच्छति॥"),
   ("english_translation", vs "One who has given up all desires for sense gratification, who lives free from desires, who has given up all sense of proprietorship and is devoid of false ego—he alone can attain real peace."),
   ("guidance_text", vs "True peace comes not from having everything, but from wanting nothing beyond what is. Your contentment reflects spiritual maturity. Krishna honors this state as the foundation of lasting happiness. Cherish this peace and let it guide your choices.")],
  [("_id", vs "guidance_joy_acceptance"),
   ("mood_id", vs "joy_acceptance"),
   ("title", vs "Equanimity in All Circumstances"),
   ("verse_reference", vs "Bhagavad Gita 2.48"),
   ("sanskrit_verse", vs "योगस्थः कुरु कर्माणि सङ्गं त्यक्त्वा धनञ्जय।\nसिद्ध्यसिद्ध्योः समो भूत्वा समत्वं योग उच्यते॥"),
   ("english_translation", vs "Perform your duty with a steady mind, O Arjuna, abandoning attachment to success and failure. Such equanimity is called yoga."),
   ("guidance_text", vs "Acceptance is not resignation—it is wisdom. By accepting what is, you free yourself from the burden of constant resistance. Krishna teaches that equanimity in both joy and sorrow is the mark of a yogi. This acceptance allows you to act with clarity and purpose.")],
  [("_id", vs "guidance_doubt_faith"),
   ("mood_id", vs "doubt_faith"),
   ("title", vs "Faith Destroys Doubt"),
   ("verse_reference", vs "Bhagavad Gita 4.40"),
   ("sanskrit_verse", vs "अज्ञश्चाश्रद्दधानश्च संशयात्मा विनश्यति।\nनायं लोकोऽस्ति न परो न सुखं संशयात्मनः॥"),
   ("english_translation", vs "But ignorant and faithless persons who doubt the revealed scriptures do not attain God consciousness. For the doubting soul there is happiness neither in this world nor in the next."),
   ("guidance_text", vs "Doubt is natural, but dwelling in it brings suffering. Krishna acknowledges that faith requires courage—believing in what cannot be proven. Your questioning shows you are thinking deeply. Now take the next step: choose faith and see where it leads. Experience will dissolve doubt better than argument.")],
  [("_id", vs "guidance_doubt_teachings"),
   ("mood_id", vs "doubt_teachings"),
   ("title", vs "Test the Teachings Through Practice"),
   ("verse_reference", vs "Bhagavad Gita 18.73"),
   ("sanskrit_verse", vs "अर्जुन उवाच\nनष्टो मोहः स्मृतिर्लब्धा त्वत्प्रसादान्मयाच्युत।\nस्थितोऽस्मि गतसन्देहः करिष्ये वचनं तव॥"),
   ("english_translation", vs "Arjuna said: My illusion has been destroyed and I have gained understanding through Your grace. I am now firm and free from doubt, and I will act according to Your instruction."),
   ("guidance_text", vs "Arjuna also doubted at first—his transformation came through listening and practicing. Don\x27t expect to understand everything immediately. Apply what resonates, observe the results in your life. The Gita\x27s truth reveals itself through sincere practice, not mere intellectual study.")],
  [("_id", vs "guidance_doubt_self"),
   ("mood_id", vs "doubt_self"),
   ("title", vs "Trust Your Inner Wisdom"),
   ("verse_reference", vs "Bhagavad Gita 6.5"),
   ("sanskrit_verse", vs "उद्धरेदात्मनात्मानं नात्मानमवसादयेत्।\nआत्मैव ह्यात्मनो बन्धुरात्मैव रिपुरात्मनः॥"),
   ("english_translation", vs "Elevate yourself through the power of your mind, and not degrade yourself, for the mind can be the friend and also the enemy of the self."),
   ("guidance_text", vs "Self-doubt weakens you. Krishna teaches that you have the power to lift yourself up or bring yourself down. When you doubt, remember: you have within you the same divine spark that powers all creation. Act with what wisdom you have, and trust that you will learn as you go.")],
  [("_id", vs "guidance_pride_achievement"),
   ("mood_id", vs "pride_achievement"),
   ("title", vs "You Are Not the Doer"),
   ("verse_reference", vs "Bhagavad Gita 3.27"),
   ("sanskrit_verse", vs "प्रकृतेः क्रियमाणानि गुणैः कर्माणि सर्वशः।\nअहङ्कारविमूढात्मा कर्ताहमिति मन्यते॥"),
   ("english_translation", vs "All actions are performed by the modes of material nature, but the soul deluded by false ego thinks, \x27I am the doer.\x27"),
   ("guidance_text", vs "Your achievements came through a combination of effort, circumstances, support from others, and forces beyond your control. Krishna reminds us that ego makes us think \x27I did this alone.\x27 Recognize your role, but also honor all that made success possible. Gratitude dissolves pride.")],
  [("_id", vs "guidance_pride_knowledge"),
   ("mood_id", vs "pride_knowledge"),
   ("title", vs "True Knowledge Brings Humility"),
   ("verse_reference", vs "Bhagavad Gita 13.8"),
   ("sanskrit_verse", vs "अमानित्वमदम्भित्वमहिंसा क्षान्तिरार्जवम्।\nआचार्योपासनं शौचं स्थैर्यमात्मविनिग्रहः॥"),
   ("english_translation", vs "Humility, modesty, nonviolence, tolerance, simplicity, approaching a bona fide spiritual master, cleanliness, steadiness, self-control—these are the qualities of true knowledge."),
   ("guidance_text", vs "If knowledge makes you proud, you have not truly understood. Real wisdom makes one humble, because it reveals how much remains unknown. The wise person knows that all knowledge comes from a source beyond themselves. Let your learning inspire reverence, not arrogance.")],
  [("_id", vs "guidance_pride_status"),
   ("mood_id", vs "pride_status"),
   ("title", vs "All Positions Are Temporary"),
   ("verse_reference", vs "Bhagavad Gita 2.14"),
   ("sanskrit_verse", vs "मात्रास्पर्शास्तु कौन्तेय शीतोष्णसुखदुःखदाः।\nआगमापायिनोऽनित्यास्तांस्तितिक्षस्व भारत॥"),
   ("english_translation", vs "The contact of the senses with their objects, O son of Kunti, gives rise to heat and cold, pleasure and pain. These are temporary and come and go like seasons. Learn to endure them."),
   ("guidance_text", vs "Status, like all worldly things, is fleeting. The position you hold today may be gone tomorrow. Krishna teaches that what matters is not your title, but your character and actions. Don\x27t identify with your role—you are far more than any position you occupy.")],
  [("_id", vs "guidance_desire_wealth"),
   ("mood_id", vs "desire_wealth"),
   ("title", vs "Desire Leads to Endless Suffering"),
   ("verse_reference", vs "Bhagavad Gita 2.62-63"),
   ("sanskrit_verse", vs "ध्यायतो विषयान्पुंसः सङ्गस्तेषूपजायते।\nसङ्गात्सञ्जायते कामः कामात्क्रोधोऽभिजायते॥"),
   ("english_translation", vs "While contemplating the objects of the senses, a person develops attachment for them. From attachment comes desire, and from desire arises anger."),
   ("guidance_text", vs "The more you focus on what you want, the more enslaved you become. Krishna warns that desire is never satisfied—fulfilling one only creates another. True wealth is contentment. Ask yourself: what do you truly need? Freedom comes not from having more, but from wanting less.")],
  [("_id", vs "guidance_desire_pleasure"),
   ("mood_id", vs "desire_pleasure"),
   ("title", vs "Temporary Pleasures Bring Lasting Pain"),
   ("verse_reference", vs "Bhagavad Gita 5.22"),
   ("sanskrit_verse", vs "ये हि संस्पर्शजा भोगा दुःखयोनय एव ते।\nआद्यन्तवन्तः कौन्तेय न तेषु रमते बुधः॥"),
   ("english_translation", vs "The pleasures that arise from contact with sense objects are sources of misery and have a beginning and an end. The wise, O son of Kunti, do not rejoice in them."),
   ("guidance_text", vs "Pleasures derived from the senses seem sweet at first, but they fade quickly, leaving you empty and wanting more. Krishna teaches that the wise find joy within, not in fleeting sensations. Seek lasting contentment through spiritual practice, not temporary thrills.")],
  [("_id", vs "guidance_desire_control"),
   ("mood_id", vs "desire_control"),
   ("title", vs "Surrender Control to Find Peace"),
   ("verse_reference", vs "Bhagavad Gita 18.66"),
   ("sanskrit_verse", vs "सर्वधर्मान्परित्यज्य मामेकं शरणं व्रज।\nअहं त्वां सर्वपापेभ्यो मोक्षयिष्यामि मा शुचः॥"),
   ("english_translation", vs "Abandon all varieties of dharma and just surrender unto Me. I shall deliver you from all sinful reactions. Do not fear."),
   ("guidance_text", vs "The need to control everything is exhausting and ultimately impossible. Krishna invites you to release this burden. Do your part with sincerity, but trust the larger process. Surrender doesn\x27t mean giving up—it means acting without the anxiety of trying to control everything.")],
  [("_id", vs "guidance_envy_success"),
   ("mood_id", vs "envy_success"),
   ("title", vs "Each Has Their Own Path"),
   ("verse_reference", vs "Bhagavad Gita 3.35"),
   ("sanskrit_verse", vs "श्रेयान्स्वधर्मो विगुणः परधर्मात्स्वनुष्ठितात्।\nस्वधर्मे निधनं श्रेयः परधर्मो भयावहः॥"),
   ("english_translation", vs "It is better to perform one\x27s own duty imperfectly than to perform another\x27s duty perfectly. It is better to die doing one\x27s own duty; another\x27s duty is fraught with danger."),
   ("guidance_text", vs "Comparing yourself to others is a trap. Their path is not yours. Krishna teaches that you must walk your own road, however humble it may seem. Your journey has unique meaning. Envy blinds you to your own gifts and the special contribution only you can make.")],
  [("_id", vs "guidance_envy_happiness"),
   ("mood_id", vs "envy_happiness"),
   ("title", vs "Rejoice in Others\x27 Good Fortune"),
   ("verse_reference", vs "Bhagavad Gita 12.13-14"),
   ("sanskrit_verse", vs "अद्वेष्टा सर्वभूतानां मैत्रः करुण एव च।\nनिर्ममो निरहङ्कारः समदुःखसुखः क्षमी॥"),
   ("english_translation", vs "One who is not envious but is a kind friend to all, who does not think himself a proprietor, who is free from false ego and equal in both happiness and distress—such a person is very dear to Me."),
   ("guidance_text", vs "Another person\x27s joy does not diminish yours. Krishna values those who can celebrate others\x27 happiness without jealousy. Practice wishing well for those you envy—it will free you. Remember, their contentment doesn\x27t block yours. There is enough grace for everyone.")],
  [("_id", vs "guidance_envy_fortune"),
   ("mood_id", vs "envy_fortune"),
   ("title", vs "Your Journey Unfolds as It Should"),
   ("verse_reference", vs "Bhagavad Gita 18.46"),
   ("sanskrit_verse", vs "यतः प्रवृत्तिर्भूतानां येन सर्वमिदं ततम्।\nस्वकर्मणा तमभ्यर्च्य सिद्धिं विन्दति मानवः॥"),
   ("english_translation", vs "By performing one\x27s own duty, worshiping the Lord from whom all beings have come and by whom the whole universe is pervaded, a person attains perfection."),
   ("guidance_text", vs "You see only a snapshot of others\x27 lives, not their struggles or sorrows. Krishna reminds you that each person\x27s karma unfolds uniquely. Instead of coveting what others have, focus on fulfilling your own purpose. Your path leads somewhere meaningful, even if you can\x27t see it yet.")],
  [("_id", vs "guidance_despair_effort"),
   ("mood_id", vs "despair_effort"),
   ("title", vs "No Effort Is Ever Wasted"),
   ("verse_reference", vs "Bhagavad Gita 2.40"),
   ("sanskrit_verse", vs "नेहाभिक्रमनाशोऽस्ति प्रत्यवायो न विद्यते।\nस्वल्पमप्यस्य धर्मस्य त्रायते महतो भयात्॥"),
   ("english_translation", vs "In this endeavor there is no loss or diminution, and even a little advancement on this path can protect one from the most dangerous fear."),
   ("guidance_text", vs "When you feel nothing matters, remember Krishna\x27s promise: no sincere effort is ever lost. Even small acts of dharma accumulate. You may not see results immediately, but every right action plants seeds. The universe wastes nothing. Your efforts matter, even when results are invisible.")],
  [("_id", vs "guidance_despair_alone"),
   ("mood_id", vs "despair_alone"),
   ("title", vs "The Divine Witness Sees All"),
   ("verse_reference", vs "Bhagavad Gita 13.23"),
   ("sanskrit_verse", vs "उपद्रष्टानुमन्ता च भर्ता भोक्ता महेश्वरः।\nपरमात्मेति चाप्युक्तो देहेऽस्मिन्पुरुषः परः॥"),
   ("english_translation", vs "Yet in this body there is another, the transcendent Lord, who is the supreme observer, the permitter, the supporter, the experiencer, and the ultimate controller, called the Supersoul."),
   ("guidance_text", vs "You are never truly alone in your suffering. Krishna reveals that the divine presence within witnesses every moment of your struggle. Your pain is seen, your effort is known. This presence understands you completely, even when no human does. Find comfort in this eternal companionship.")],
  [("_id", vs "guidance_despair_future"),
   ("mood_id", vs "despair_future"),
   ("title", vs "Darkness Precedes Dawn"),
   ("verse_reference", vs "Bhagavad Gita 2.69"),
   ("sanskrit_verse", vs "या निशा सर्वभूतानां तस्यां जागर्ति संयमी।\nयस्यां जाग्रति भूतानि सा निशा पश्यतो मुनेः॥"),
   ("english_translation", vs "What is night for all beings is the time of awakening for the self-controlled; and the time of awakening for all beings is night for the introspective sage."),
   ("guidance_text", vs "When you cannot see hope, it doesn\x27t mean there is none. Sometimes the darkest hour comes before transformation. Krishna teaches that the wise see differently than others—what seems like an ending may be a beginning. Hold on. Continue doing what is right. The dawn you cannot yet see is coming.")],
  [("_id", vs "guidance_fear_failure"),
   ("mood_id", vs "fear_failure"),
   ("title", vs "Success and Failure Are the Same"),
   ("verse_reference", vs "Bhagavad Gita 2.48"),
   ("sanskrit_verse", vs "योगस्थः कुरु कर्माणि सङ्गं त्यक्त्वा धनञ्जय।\nसिद्ध्यसिद्ध्योः समो भूत्वा समत्वं योग उच्यते॥"),
   ("english_translation", vs "Perform your duty with a steady mind, abandoning attachment to success and failure. Such equanimity is called yoga."),
   ("guidance_text", vs "Fear of failure paralyzes action. Krishna teaches that true success lies not in outcomes, but in performing your duty with sincerity. When you are equally poised in success and failure, you are free to act courageously. Do your best and accept the result with grace. This is the way of the yogi.")],
  [("_id", vs "guidance_anger_world"),
   ("mood_id", vs "anger_world"),
   ("title", vs "Accept What Cannot Be Changed"),
   ("verse_reference", vs "Bhagavad Gita 2.14"),
   ("sanskrit_verse", vs "मात्रास्पर्शास्तु कौन्तेय शीतोष्णसुखदुःखदाः।\nआगमापायिनोऽनित्यास्तांस्तितिक्षस्व भारत॥"),
   ("english_translation", vs "The contact of the senses with their objects, O son of Kunti, gives rise to heat and cold, pleasure and pain. These are temporary and come and go like seasons. Learn to endure them."),
   ("guidance_text", vs "The world will not always meet your expectations, and anger at this reality only increases suffering. Krishna teaches acceptance—not resignation, but understanding that change is constant and universal. Channel your energy toward what you can influence: your own actions and responses. Peace comes from accepting the world as it is while working toward what it can become.")],
  [("_id", vs "guidance_anger_self"),
   ("mood_id", vs "anger_self"),
   ("title", vs "Uplift Yourself, Don\x27t Condemn"),
   ("verse_reference", vs "Bhagavad Gita 6.5"),
   ("sanskrit_verse", vs "उद्धरेदात्मनात्मानं नात्मानमवसादयेत्।\nआत्मैव ह्यात्मनो बन्धुरात्मैव रिपुरात्मनः॥"),
   ("english_translation", vs "Elevate yourself through the power of your mind, and not degrade yourself, for the mind can be the friend and also the enemy of the self."),
   ("guidance_text", vs "Self-directed anger is self-destruction. Krishna teaches that you must be your own ally, not your enemy. Yes, you have made mistakes—everyone does. Learn from them and move forward. Treat yourself with the same kindness you would offer a dear friend who is struggling. You deserve your own compassion.")],
  [("_id", vs "guidance_grief_change"),
   ("mood_id", vs "grief_change"),
   ("title", vs "Change is the Nature of Life"),
   ("verse_reference", vs "Bhagavad Gita 2.27"),
   ("sanskrit_verse", vs "जातस्य हि ध्रुवो मृत्युर्ध्रुवं जन्म मृतस्य च।\nतस्मादपरिहार्येऽर्थे न त्वं शोचितुमर्हसि॥"),
   ("english_translation", vs "For one who has taken birth, death is certain; and for one who has died, birth is certain. Therefore, you should not lament over the inevitable."),
   ("guidance_text", vs "The way things were cannot remain forever—this is the law of existence. Krishna teaches that change, though painful, is natural and necessary. Honor what you had, but do not resist life\x27s flow. Even as you grieve, new possibilities are emerging. The essence of what you loved remains, transformed but not lost.")],
  [("_id", vs "guidance_grief_health"),
   ("mood_id", vs "grief_health"),
   ("title", vs "The Body Changes, the Soul Remains"),
   ("verse_reference", vs "Bhagavad Gita 2.13"),
   ("sanskrit_verse", vs "देहिनोऽस्मिन्यथा देहे कौमारं यौवनं जरा।\nतथा देहान्तरप्राप्तिर्धीरस्तत्र न मुह्यति॥"),
   ("english_translation", vs "Just as the embodied soul continuously passes through childhood, youth, and old age, similarly, at the time of death, the soul passes into another body. The wise are not deluded by this."),
   ("guidance_text", vs "Physical decline is difficult to accept, but Krishna reminds us that the body is temporary while the soul endures. You are more than your physical form. Find new ways to contribute and connect that honor your current state. Wisdom and presence do not diminish with age—they often deepen. Your value is not measured by physical strength.")],
  [("_id", vs "guidance_confusion_choice"),
   ("mood_id", vs "confusion_choice"),
   ("title", vs "Act with What You Know Now"),
   ("verse_reference", vs "Bhagavad Gita 3.19"),
   ("sanskrit_verse", vs "तस्मादसक्तः सततं कार्यं कर्म समाचर।\nअसक्तो ह्याचरन्कर्म परमाप्नोति पूरुषः॥"),
   ("english_translation", vs "Therefore, without attachment, constantly perform actions which are duty, for by performing actions without attachment, one attains the Supreme."),
   ("guidance_text", vs "Indecision often masks fear of making the wrong choice. Krishna teaches that action, even imperfect, is better than paralysis. Make the best decision you can with what you know now. Learn as you go. Most paths lead somewhere worthwhile when walked with sincerity. The important thing is to move forward.")],
  [("_id", vs "guidance_confusion_meaning"),
   ("mood_id", vs "confusion_meaning"),
   ("title", vs "Meaning is Created Through Action"),
   ("verse_reference", vs "Bhagavad Gita 3.20"),
   ("sanskrit_verse", vs "कर्मणैव हि संसिद्धिमास्थिता जनकादयः।\nलोकसंग्रहमेवापि संपश्यन्कर्तुमर्हसि॥"),
   ("english_translation", vs "King Janaka and others attained perfection through action alone. You should also perform your duty with a view to guide people and for the welfare of society."),
   ("guidance_text", vs "Life\x27s meaning is not found by thinking alone—it emerges through doing. Krishna teaches that purpose reveals itself in service and action. Instead of seeking a grand meaning, begin with small acts of kindness and duty. Meaning accumulates in how you treat others and fulfill your responsibilities. Do good, and purpose will follow.")],
  [("_id", vs "guidance_detachment_emptiness"),
   ("mood_id", vs "detachment_emptiness"),
   ("title", vs "Fill Emptiness with the Divine"),
   ("verse_reference", vs "Bhagavad Gita 9.22"),
   ("sanskrit_verse", vs "अनन्याश्चिन्तयन्तो मां ये जनाः पर्युपासते।\nतेषां नित्याभियुक्तानां योगक्षेमं वहाम्यहम्॥"),
   ("english_translation", vs "To those who are constantly devoted and who worship Me with love, I give the understanding by which they can come to Me."),
   ("guidance_text", vs "The emptiness you feel is the soul\x27s longing for connection with something greater. Krishna promises that those who turn to the Divine with devotion will find fulfillment. What worldly pleasures once filled, they no longer can. This void is an invitation—fill it not with more possessions or distractions, but with spiritual practice, prayer, and service. The Divine fills all emptiness.")],
  [("_id", vs "guidance_detachment_world"),
   ("mood_id", vs "detachment_world"),
   ("title", vs "Be in the World, Not of It"),
   ("verse_reference", vs "Bhagavad Gita 5.10"),
   ("sanskrit_verse", vs "ब्रह्मण्याधाय कर्माणि सङ्गं त्यक्त्वा करोति यः।\nलिप्यते न स पापेन पद्मपत्रमिवाम्भसा॥"),
   ("english_translation", vs "One who performs duties without attachment, dedicating actions to the Supreme, is not tainted by sin, just as a lotus leaf is untouched by water."),
   ("guidance_text", vs "Feeling disconnected from the world can be wisdom, not loneliness. Krishna uses the lotus as example—it grows in water but remains dry. Engage with life fully, but don\x27t let it pull you under. Your spiritual nature transcends worldly affairs. Participate in the world while remaining centered in your true self.")],
  [("_id", vs "guidance_fear_illness"),
   ("mood_id", vs "fear_illness"),
   ("title", vs "The Body is Temporary, Spirit Eternal"),
   ("verse_reference", vs "Bhagavad Gita 2.22"),
   ("sanskrit_verse", vs "वासांसि जीर्णानि यथा विहाय नवानि गृह्णाति नरोऽपराणि।\nतथा शरीराणि विहाय जीर्णान्यन्यानि संयाति नवानि देही॥"),
   ("english_translation", vs "As a person sheds worn-out garments and wears new ones, likewise, at the time of death, the soul casts off worn-out bodies and enters new ones."),
   ("guidance_text", vs "Illness reminds us of our body\x27s fragility, but Krishna teaches that your true self is beyond illness. The body may weaken, but the soul remains untouched. Use this time to deepen your spiritual practice. Health comes and goes, but your eternal nature endures. Fear not the body\x27s changes—honor the spirit within.")],
  [("_id", vs "guidance_fear_abandonment"),
   ("mood_id", vs "fear_abandonment"),
   ("title", vs "The Divine Never Abandons You"),
   ("verse_reference", vs "Bhagavad Gita 9.31"),
   ("sanskrit_verse", vs "कौन्तेय प्रतिजानीहि न मे भक्तः प्रणश्यति॥"),
   ("english_translation", vs "O son of Kunti, declare it boldly that My devotee never perishes."),
   ("guidance_text", vs "People may come and go, but the Divine presence remains constant. Krishna promises that those who remember the Divine are never truly alone. Cultivate this inner relationship—it cannot be lost through distance or death. Even if everyone leaves, you carry within you an eternal companion who knows and loves you completely.")],
  [("_id", vs "guidance_fear_change"),
   ("mood_id", vs "fear_change"),
   ("title", vs "Change is Life\x27s Constant Teacher"),
   ("verse_reference", vs "Bhagavad Gita 2.14"),
   ("sanskrit_verse", vs "मात्रास्पर्शास्तु कौन्तेय शीतोष्णसुखदुःखदाः।\nआगमापायिनोऽनित्यास्तांस्तितिक्षस्व भारत॥"),
   ("english_translation", vs "The contact of the senses with their objects gives rise to heat and cold, pleasure and pain. These are temporary and come and go. Learn to endure them, O Bharata."),
   ("guidance_text", vs "Change is inevitable—resisting it only increases suffering. Krishna teaches that all circumstances are temporary, like seasons. Winter becomes spring, sorrow becomes joy. Trust in life\x27s rhythms. What feels like an ending may be a new beginning. Face change with courage, knowing that your adaptable spirit has survived all previous transitions.")],
  [("_id", vs "guidance_anger_betrayal"),
   ("mood_id", vs "anger_betrayal"),
   ("title", vs "Betrayal Cannot Touch Your Soul"),
   ("verse_reference", vs "Bhagavad Gita 5.18"),
   ("sanskrit_verse", vs "विद्याविनयसम्पन्ने ब्राह्मणे गवि हस्तिनि।\nशुनि चैव श्वपाके च पण्डिताः समदर्शिनः॥"),
   ("english_translation", vs "The truly wise, with the eyes of knowledge, see equally the learned sage, the cow, the elephant, the dog, and the person of low birth."),
   ("guidance_text", vs "Betrayal wounds deeply, but Krishna teaches that others\x27 actions reflect their character, not your worth. Your true self remains untarnished. Let this experience teach you wisdom without hardening your heart. Forgiveness doesn\x27t excuse their action—it frees you from carrying the burden of their wrong. Protect yourself wisely, but don\x27t let bitterness poison your spirit.")],
  [("_id", vs "guidance_anger_powerless"),
   ("mood_id", vs "anger_powerless"),
   ("title", vs "Your Duty is to Act, Not Control Results"),
   ("verse_reference", vs "Bhagavad Gita 2.47"),
   ("sanskrit_verse", vs "कर्मण्येवाधिकारस्ते मा फलेषु कदाचन।\nमा कर्मफलहेतुर्भूर्मा ते सङ्गोऽस्त्वकर्मणि॥"),
   ("english_translation", vs "You have the right to perform your prescribed duties, but you are not entitled to the fruits of your actions. Never consider yourself to be the cause of the results, nor be attached to inaction."),
   ("guidance_text", vs "Helplessness arises when we feel responsible for outcomes we cannot control. Krishna liberates us from this burden—your power lies in sincere effort, not guaranteed results. Do what you can with love and skill, then release attachment to how it unfolds. This is not giving up; it\x27s wisdom. You are not powerless—you have the power that matters: the power to act rightly.")],
  [("_id", vs "guidance_anger_disrespect"),
   ("mood_id", vs "anger_disrespect"),
   ("title", vs "Your Worth Is Not Defined by Others"),
   ("verse_reference", vs "Bhagavad Gita 12.18-19"),
   ("sanskrit_verse", vs "समः शत्रौ च मित्रे च तथा मानापमानयोः।\nशीतोष्णसुखदुःखेषु समः सङ्गविवर्जितः॥"),
   ("english_translation", vs "One who is equal toward friend and foe, in honor and dishonor, in heat and cold, happiness and distress—such a person is very dear to Me."),
   ("guidance_text", vs "Disrespect stings because we seek validation from others. Krishna teaches that the wise remain steady whether praised or criticized. Your value is inherent, not dependent on others\x27 recognition. Those who disrespect you reveal their own limitations, not yours. Stand in your dignity without needing their approval. True respect comes from self-respect.")],
  [("_id", vs "guidance_grief_dream"),
   ("mood_id", vs "grief_dream"),
   ("title", vs "New Dreams Await Beyond the Old"),
   ("verse_reference", vs "Bhagavad Gita 2.69"),
   ("sanskrit_verse", vs "या निशा सर्वभूतानां तस्यां जागर्ति संयमी।\nयस्यां जाग्रति भूतानि सा निशा पश्यतो मुनेः॥"),
   ("english_translation", vs "What is night for all beings is the time of awakening for the self-controlled; and the time of awakening for all beings is night for the introspective sage."),
   ("guidance_text", vs "When a dream dies, it feels like losing a part of yourself. Krishna teaches that endings create space for transformation. Perhaps that dream was preparing you for something greater. Grieve what you hoped for, then look with new eyes. Life has dreams for you that you haven\x27t imagined yet. Trust that closed doors lead to open horizons.")],
  [("_id", vs "guidance_grief_relationship"),
   ("mood_id", vs "grief_relationship"),
   ("title", vs "Love Transcends Physical Presence"),
   ("verse_reference", vs "Bhagavad Gita 2.23"),
   ("sanskrit_verse", vs "नैनं छिन्दन्ति शस्त्राणि नैनं दहति पावकः।\nन चैनं क्लेदयन्त्यापो न शोषयति मारुतः॥"),
   ("english_translation", vs "Weapons cannot cut the soul, fire cannot burn it, water cannot wet it, and wind cannot dry it."),
   ("guidance_text", vs "Relationships may end in form, but the love shared leaves eternal marks on the soul. Krishna teaches that true connection transcends physical presence. What you learned and how you grew through that relationship remains forever. Honor the ending, but know that real love never truly ends—it transforms. Carry forward the gifts that relationship gave you.")],
  [("_id", vs "guidance_grief_youth"),
   ("mood_id", vs "grief_youth"),
   ("title", vs "Age Brings Wisdom\x27s Greater Gifts"),
   ("verse_reference", vs "Bhagavad Gita 2.13"),
   ("sanskrit_verse", vs "देहिनोऽस्मिन्यथा देहे कौमारं यौवनं जरा।\nतथा देहान्तरप्राप्तिर्धीरस्तत्र न मुह्यति॥"),
   ("english_translation", vs "Just as the embodied soul continuously passes through childhood, youth, and old age, similarly, at the time of death, the soul passes into another body. The wise are not deluded by this."),
   ("guidance_text", vs "Youth\x27s energy fades, but something deeper emerges—wisdom, perspective, and peace. Krishna reminds us that all bodies age; the soul does not. What you\x27ve gained in understanding and character far exceeds what you\x27ve lost in physical vitality. Your youth served its purpose. Now embrace the richness that only age can bring. The best of you is timeless.")],
  [("_id", vs "guidance_confusion_identity"),
   ("mood_id", vs "confusion_identity"),
   ("title", vs "Your True Self is Beyond Roles"),
   ("verse_reference", vs "Bhagavad Gita 2.20"),
   ("sanskrit_verse", vs "न जायते म्रियते वा कदाचिन्नायं भूत्वा भविता वा न भूयः।\nअजो नित्यः शाश्वतोऽयं पुराणो न हन्यते हन्यमाने शरीरे॥"),
   ("english_translation", vs "The soul is never born and never dies. It is unborn, eternal, ever-existing, and primeval. The soul is not slain when the body is slain."),
   ("guidance_text", vs "You may have lost your roles—worker, spouse, parent—but these were never your true identity. Krishna reveals that your essence is eternal consciousness, beyond all labels. When external identities fall away, the authentic self emerges. This confusion is actually awakening. Who are you beyond what you do or how others see you? Discover this, and you find unshakeable peace.")],
  [("_id", vs "guidance_confusion_direction"),
   ("mood_id", vs "confusion_direction"),
   ("title", vs "Follow Dharma, the Path Appears"),
   ("verse_reference", vs "Bhagavad Gita 3.35"),
   ("sanskrit_verse", vs "श्रेयान्स्वधर्मो विगुणः परधर्मात्स्वनुष्ठितात्।\nस्वधर्मे निधनं श्रेयः परधर्मो भयावहः॥"),
   ("english_translation", vs "It is better to perform one\x27s own duty imperfectly than to perform another\x27s duty perfectly. It is better to die doing one\x27s own duty; another\x27s duty is fraught with danger."),
   ("guidance_text", vs "Not knowing which way to go can be paralyzing. Krishna teaches that your path reveals itself when you follow dharma—right action in this moment. Don\x27t wait for perfect clarity. Take the next right step, even if you can\x27t see the full journey. Your path finds you when you walk with integrity. Direction emerges from movement, not from standing still.")],
  [("_id", vs "guidance_confusion_values"),
   ("mood_id", vs "confusion_values"),
   ("title", vs "Root Your Values in the Eternal"),
   ("verse_reference", vs "Bhagavad Gita 9.30"),
   ("sanskrit_verse", vs "अपि चेत्सुदुराचारो भजते मामनन्यभाक्।\nसाधुरेव स मन्तव्यः सम्यग्व्यवसितो हि सः॥"),
   ("english_translation", vs "Even if the most sinful person resolves to worship Me with exclusive devotion, that person is to be considered saintly, for their resolve is properly placed."),
   ("guidance_text", vs "Conflicting values create inner turmoil. Krishna offers clarity: root yourself in the Divine, and lesser conflicts resolve. When you align with eternal principles—truth, compassion, service—situational confusions fall away. Not all values are equal. Prioritize spiritual truth above social convention, inner integrity above external approval. This hierarchy brings peace.")],
  [("_id", vs "guidance_detachment_numb"),
   ("mood_id", vs "detachment_numb"),
   ("title", vs "Feel to Heal, Then Transcend"),
   ("verse_reference", vs "Bhagavad Gita 6.20-21"),
   ("sanskrit_verse", vs "यत्रोपरमते चित्तं निरुद्धं योगसेवया।\nयत्र चैवात्मनात्मानं पश्यन्नात्मनि तुष्यति॥"),
   ("english_translation", vs "When the mind, restrained by the practice of yoga, attains quietude, and when, seeing the Self by the Self, one is satisfied in the Self alone."),
   ("guidance_text", vs "Numbness often protects us from overwhelming pain. Krishna teaches that true detachment is not numbness—it\x27s profound peace after fully experiencing emotion. Don\x27t rush past your feelings. Acknowledge them, then release them. Meditation can help you feel without being consumed. Real equanimity includes all emotions, holding them lightly. You\x27re not broken—you\x27re protecting yourself. Healing restores feeling.")],
  [("_id", vs "guidance_detachment_apathy"),
   ("mood_id", vs "detachment_apathy"),
   ("title", vs "Apathy is Not Wisdom"),
   ("verse_reference", vs "Bhagavad Gita 3.8"),
   ("sanskrit_verse", vs "नियतं कुरु कर्म त्वं कर्म ज्यायो ह्यकर्मणः।\nशरीरयात्रापि च ते न प्रसिद्ध्येदकर्मणः॥"),
   ("english_translation", vs "Perform your prescribed duties, for action is better than inaction. Without work, even the maintenance of your physical body would not be possible."),
   ("guidance_text", vs "Apathy masquerades as detachment but leads to stagnation. Krishna doesn\x27t teach withdrawal from life—he teaches engaged action without attachment to results. Do what is yours to do, not because you care about results, but because it is right. Purpose returns when you act, even without passion. Movement creates meaning. Begin with small duties, and interest will follow.")],
  [("_id", vs "guidance_detachment_tired"),
   ("mood_id", vs "detachment_tired"),
   ("title", vs "Rest in the Divine, Then Rise Again"),
   ("verse_reference", vs "Bhagavad Gita 6.17"),
   ("sanskrit_verse", vs "युक्ताहारविहारस्य युक्तचेष्टस्य कर्मसु।\nयुक्तस्वप्नावबोधस्य योगो भवति दुःखहा॥"),
   ("english_translation", vs "For one who is moderate in eating and recreation, regulated in work, and proper in sleep and wakefulness, yoga destroys all sorrows."),
   ("guidance_text", vs "Life-weariness signals that you\x27ve been carrying too much for too long. Krishna teaches balance—rest is not weakness, it\x27s wisdom. Give yourself permission to step back and replenish. You don\x27t have to keep fighting. Sometimes the bravest thing is to rest, trusting that life continues. Surrender your exhaustion to the Divine. When you\x27re ready, strength will return.")],
  [("_id", vs "guidance_joy_serenity"),
   ("mood_id", vs "joy_serenity"),
   ("title", vs "Serenity is Your Natural State"),
   ("verse_reference", vs "Bhagavad Gita 5.21"),
   ("sanskrit_verse", vs "बाह्यस्पर्शेष्वसक्तात्मा विन्दत्यात्मनि यत्सुखम्।\nस ब्रह्मयोगयुक्तात्मा सुखमक्षयमश्नुते॥"),
   ("english_translation", vs "One who is not attached to external sense pleasures realizes happiness in the Self. Engaging in meditation, such a person enjoys unlimited happiness."),
   ("guidance_text", vs "The serenity you feel is not a temporary mood—it\x27s a glimpse of your true nature. Krishna teaches that lasting peace comes from within, not from circumstances. Circumstances change, but the peace within remains steady. Cherish this state and remember it during storms. You\x27ve tasted what lies at your core: unchanging, divine tranquility. Meditation deepens this connection.")],
  [("_id", vs "guidance_joy_connection"),
   ("mood_id", vs "joy_connection"),
   ("title", vs "Divine Connection is Your Birthright"),
   ("verse_reference", vs "Bhagavad Gita 10.8"),
   ("sanskrit_verse", vs "अहं सर्वस्य प्रभवो मत्तः सर्वं प्रवर्तते।\nइति मत्वा भजन्ते मां बुधा भावसमन्विताः॥"),
   ("english_translation", vs "I am the source of all creation. Everything emanates from Me. The wise who know this perfectly worship Me with loving devotion."),
   ("guidance_text", vs "The connection you feel is real and sacred. Krishna confirms that the Divine dwells within and all around. This feeling of union is your soul recognizing its source. Nurture this relationship through prayer, meditation, and service. You\x27re not imagining it—you\x27re awakening to the truth. All separation is illusion; connection is reality.")],
  [("_id", vs "guidance_joy_wisdom"),
   ("mood_id", vs "joy_wisdom"),
   ("title", vs "Wisdom Brings Lasting Joy"),
   ("verse_reference", vs "Bhagavad Gita 4.38"),
   ("sanskrit_verse", vs "न हि ज्ञानेन सदृशं पवित्रमिह विद्यते।\nतत्स्वयं योगसंसिद्धः कालेनात्मनि विन्दति॥"),
   ("english_translation", vs "In this world, there is nothing as purifying as divine knowledge. One who is perfected in yoga discovers this within the Self in due course of time."),
   ("guidance_text", vs "The joy of understanding life\x27s deeper truths surpasses all other pleasures. Krishna honors wisdom as the highest purifier. Your insights are hard-won treasures—share them with humility. True wisdom doesn\x27t inflate the ego; it dissolves it. You see clearly now what confusion once obscured. Use this clarity to guide yourself and others with compassion.")],
  [("_id", vs "guidance_doubt_goodness"),
   ("mood_id", vs "doubt_goodness"),
   ("title", vs "Goodness Prevails in the End"),
   ("verse_reference", vs "Bhagavad Gita 4.7-8"),
   ("sanskrit_verse", vs "यदा यदा हि धर्मस्य ग्लानिर्भवति भारत।\nअभ्युत्थानमधर्मस्य तदात्मानं सृजाम्यहम्॥"),
   ("english_translation", vs "Whenever there is a decline in righteousness and a rise in unrighteousness, O Bharata, at that time I manifest Myself."),
   ("guidance_text", vs "Evil may seem to triumph temporarily, but Krishna promises that Divine justice ultimately prevails. Goodness endures beyond individual lifetimes. Your task is not to control the world\x27s moral arc but to remain steadfast in your own integrity. Be the goodness you wish to see. Trust that righteousness has power beyond what appears. Your good actions matter eternally.")],
  [("_id", vs "guidance_doubt_purpose"),
   ("mood_id", vs "doubt_purpose"),
   ("title", vs "Your Existence Has Divine Purpose"),
   ("verse_reference", vs "Bhagavad Gita 7.6"),
   ("sanskrit_verse", vs "एतद्योनीनि भूतानि सर्वाणीत्युपधारय।\nअहं कृत्स्नस्य जगतः प्रभवः प्रलयस्तथा॥"),
   ("english_translation", vs "Understand that all living beings are born from these two natures. I am the source of the entire creation, and into Me it all dissolves."),
   ("guidance_text", vs "If you exist, you have purpose—this is Krishna\x27s teaching. You are not an accident but an expression of Divine will. Your purpose may be hidden, but it\x27s real. Often purpose reveals itself through small daily choices, not grand revelations. Live with integrity, serve where you can, and purpose unfolds naturally. Trust that your life matters in the cosmic design.")],
  [("_id", vs "guidance_doubt_karma"),
   ("mood_id", vs "doubt_karma"),
   ("title", vs "Every Action Bears Fruit"),
   ("verse_reference", vs "Bhagavad Gita 4.17"),
   ("sanskrit_verse", vs "कर्मणो ह्यपि बोद्धव्यं बोद्धव्यं च विकर्मणः।\nअकर्मणश्च बोद्धव्यं गहना कर्मणो गतिः॥"),
   ("english_translation", vs "The true nature of action is difficult to understand. You must understand what is action, what is wrong action, and what is inaction."),
   ("guidance_text", vs "Karma\x27s workings are subtle and span lifetimes—don\x27t expect immediate results. Krishna teaches that every action has consequences, though they may not be visible now. Good actions plant seeds that sprout in their time. Don\x27t let delayed justice make you cynical. Live righteously not for reward but because it is right. Universal law is patient but certain.")],
  [("_id", vs "guidance_pride_appearance"),
   ("mood_id", vs "pride_appearance"),
   ("title", vs "Beauty Fades, Character Endures"),
   ("verse_reference", vs "Bhagavad Gita 2.14"),
   ("sanskrit_verse", vs "मात्रास्पर्शास्तु कौन्तेय शीतोष्णसुखदुःखदाः।\nआगमापायिनोऽनित्यास्तांस्तितिक्षस्व भारत॥"),
   ("english_translation", vs "The contact of the senses with their objects gives rise to heat and cold, pleasure and pain. These are temporary and come and go. Learn to endure them."),
   ("guidance_text", vs "Physical beauty is fleeting—time spares no one. Krishna teaches that all sensory experiences, including beauty, are temporary. What you see in the mirror today will change. Invest in qualities that aging enhances: wisdom, kindness, and spiritual depth. True attractiveness radiates from within. Vanity blinds you to your real value, which is timeless.")],
  [("_id", vs "guidance_pride_virtue"),
   ("mood_id", vs "pride_virtue"),
   ("title", vs "True Virtue Needs No Announcement"),
   ("verse_reference", vs "Bhagavad Gita 17.14"),
   ("sanskrit_verse", vs "देवद्विजगुरुप्राज्ञपूजनं शौचमार्जवम्।\nब्रह्मचर्यमहिंसा च शारीरं तप उच्यते॥"),
   ("english_translation", vs "Worship of the gods, the priests, the spiritual teacher, and the wise; purity, straightforwardness, celibacy, and non-violence—these are said to be the austerity of the body."),
   ("guidance_text", vs "If you feel righteous compared to others, examine your heart. Krishna teaches that true virtue is humble and doesn\x27t need recognition. Moral pride is spiritual poison—it separates you from others and from God. Everyone struggles; everyone fails. Your goodness should inspire compassion, not superiority. The truly righteous never think themselves so.")],
  [("_id", vs "guidance_pride_independence"),
   ("mood_id", vs "pride_independence"),
   ("title", vs "We Are All Interdependent"),
   ("verse_reference", vs "Bhagavad Gita 3.20"),
   ("sanskrit_verse", vs "कर्मणैव हि संसिद्धिमास्थिता जनकादयः।\nलोकसंग्रहमेवापि संपश्यन्कर्तुमर्हसि॥"),
   ("english_translation", vs "King Janaka and others attained perfection through action alone. You should also perform your duty with a view to guide people and for the welfare of society."),
   ("guidance_text", vs "No one succeeds alone—we all depend on countless others. Krishna teaches that we\x27re woven together in mutual service. Your independence is an illusion built on others\x27 help. Accepting help is not weakness; it\x27s wisdom. Vulnerability connects us. The truly strong know when to lean on others. Pride isolates; humility binds us in love.")],
  [("_id", vs "guidance_desire_recognition"),
   ("mood_id", vs "desire_recognition"),
   ("title", vs "Seek the Divine\x27s Recognition Alone"),
   ("verse_reference", vs "Bhagavad Gita 6.1"),
   ("sanskrit_verse", vs "श्रीभगवानुवाच।\nअनाश्रितः कर्मफलं कार्यं कर्म करोति यः।\nस संन्यासी च योगी च न निरग्निर्न चाक्रियः॥"),
   ("english_translation", vs "The Supreme Lord said: One who performs duties without depending on the fruits of actions is a renunciate and a yogi, not one who has merely renounced fire or activities."),
   ("guidance_text", vs "Craving others\x27 approval makes you their slave. Krishna teaches that true fulfillment comes from acting rightly, regardless of recognition. The Divine sees all your efforts, acknowledged or not. Work for this audience of One. When you stop performing for human applause, you find freedom. Your worth doesn\x27t depend on being seen; it simply is.")],
  [("_id", vs "guidance_desire_comfort"),
   ("mood_id", vs "desire_comfort"),
   ("title", vs "Growth Lies Beyond Comfort"),
   ("verse_reference", vs "Bhagavad Gita 6.5"),
   ("sanskrit_verse", vs "उद्धरेदात्मनात्मानं नात्मानमवसादयेत्।\nआत्मैव ह्यात्मनो बन्धुरात्मैव रिपुरात्मनः॥"),
   ("english_translation", vs "Elevate yourself through the power of your mind, and not degrade yourself, for the mind can be the friend and also the enemy of the self."),
   ("guidance_text", vs "Attachment to comfort stunts your growth. Krishna teaches that spiritual progress requires discipline and occasional discomfort. Your comfort zone is both haven and prison. Step beyond it regularly. Challenge yourself with small austerities—not for punishment but for strength. The soul expands through stretching. Comfort has its place, but it should not rule your life.")],
  [("_id", vs "guidance_desire_security"),
   ("mood_id", vs "desire_security"),
   ("title", vs "True Security Lies in the Divine"),
   ("verse_reference", vs "Bhagavad Gita 9.22"),
   ("sanskrit_verse", vs "अनन्याश्चिन्तयन्तो मां ये जनाः पर्युपासते।\nतेषां नित्याभियुक्तानां योगक्षेमं वहाम्यहम्॥"),
   ("english_translation", vs "To those who are constantly devoted and who worship Me with love, I give the understanding by which they can come to Me."),
   ("guidance_text", vs "No worldly circumstance guarantees security—everything changes. Krishna promises that those devoted to the Divine are cared for. Real security isn\x27t controlling circumstances; it\x27s trusting that you\x27ll be okay regardless of what happens. Build your foundation on faith, not bank accounts or insurance policies. When you rest in the Divine, uncertainty becomes adventure, not threat.")],
  [("_id", vs "guidance_envy_youth"),
   ("mood_id", vs "envy_youth"),
   ("title", vs "Every Age Has Its Blessings"),
   ("verse_reference", vs "Bhagavad Gita 2.13"),
   ("sanskrit_verse", vs "देहिनोऽस्मिन्यथा देहे कौमारं यौवनं जरा।\nतथा देहान्तरप्राप्तिर्धीरस्तत्र न मुह्यति॥"),
   ("english_translation", vs "Just as the embodied soul continuously passes through childhood, youth, and old age, similarly, at the time of death, the soul passes into another body. The wise are not deluded by this."),
   ("guidance_text", vs "Youth has energy; age has wisdom. Krishna teaches that all life stages serve their purpose. Don\x27t envy what you\x27ve outgrown. The young face struggles you\x27ve survived; you possess gifts they haven\x27t earned. Each age offers unique treasures. Celebrate your season of life rather than coveting another\x27s. Your value deepens with time, it doesn\x27t diminish.")],
  [("_id", vs "guidance_envy_family"),
   ("mood_id", vs "envy_family"),
   ("title", vs "Find Family in Spiritual Community"),
   ("verse_reference", vs "Bhagavad Gita 6.32"),
   ("sanskrit_verse", vs "आत्मौपम्येन सर्वत्र समं पश्यति योऽर्जुन।\nसुखं वा यदि वा दुःखं स योगी परमो मतः॥"),
   ("english_translation", vs "One who sees happiness and distress equally in all beings, comparing them to oneself, is considered the highest yogi, O Arjuna."),
   ("guidance_text", vs "Family comes in many forms. Krishna teaches that spiritual kinship can be stronger than blood relations. If you lack biological family, create chosen family through deep friendships and spiritual community. Your capacity to love and be loved isn\x27t limited to genetics. Look around—family may be closer than you think, just not in expected forms. Open your heart to connection.")],
  [("_id", vs "guidance_envy_health"),
   ("mood_id", vs "envy_health"),
   ("title", vs "Honor Your Body\x27s Unique Journey"),
   ("verse_reference", vs "Bhagavad Gita 3.35"),
   ("sanskrit_verse", vs "श्रेयान्स्वधर्मो विगुणः परधर्मात्स्वनुष्ठितात्।\nस्वधर्मे निधनं श्रेयः परधर्मो भयावहः॥"),
   ("english_translation", vs "It is better to perform one\x27s own duty imperfectly than to perform another\x27s duty perfectly. It is better to die doing one\x27s own duty; another\x27s duty is fraught with danger."),
   ("guidance_text", vs "Every body has its karma, its unique challenges. Krishna teaches that comparing your health to others\x27 brings only suffering. Work with the body you have, not the one you wish you had. Adapt, adjust, find new ways to participate in life. Your spirit is unlimited, even if your body has limits. Health isn\x27t virtue—how you respond to your circumstances is.")],
  [("_id", vs "guidance_despair_burden"),
   ("mood_id", vs "despair_burden"),
   ("title", vs "Share Your Burden with the Divine"),
   ("verse_reference", vs "Bhagavad Gita 18.66"),
   ("sanskrit_verse", vs "सर्वधर्मान्परित्यज्य मामेकं शरणं व्रज।\nअहं त्वां सर्वपापेभ्यो मोक्षयिष्यामि मा शुचः॥"),
   ("english_translation", vs "Abandon all varieties of dharma and just surrender unto Me. I shall deliver you from all sinful reactions. Do not fear."),
   ("guidance_text", vs "When life feels too heavy, Krishna invites you to surrender. You weren\x27t meant to carry everything alone. Share your burden through prayer, asking the Divine to help you carry what you cannot bear. Surrender isn\x27t giving up—it\x27s acknowledging your limits and trusting in something greater. Even the strongest need support. Let divine grace lighten your load.")],
  [("_id", vs "guidance_despair_mistakes"),
   ("mood_id", vs "despair_mistakes"),
   ("title", vs "Learn from the Past, Live in the Present"),
   ("verse_reference", vs "Bhagavad Gita 4.36-37"),
   ("sanskrit_verse", vs "अपि चेदसि पापेभ्यः सर्वेभ्यः पापकृत्तमः।\nसर्वं ज्ञानप्लवेनैव वृजिनं सन्तरिष्यसि॥"),
   ("english_translation", vs "Even if you are the most sinful of all sinners, you will cross over the ocean of sin by the boat of divine knowledge."),
   ("guidance_text", vs "Regret keeps you imprisoned in the past. Krishna promises that no mistake is beyond redemption. Learn from errors, make amends where possible, then release them. Your past doesn\x27t define your future unless you let it. Forgiveness begins with forgiving yourself. You are more than your worst moments. Every day offers a chance to begin again with wisdom earned from what went before.")],
  [("_id", vs "guidance_despair_meaning"),
   ("mood_id", vs "despair_meaning"),
   ("title", vs "Meaning Emerges Through Service"),
   ("verse_reference", vs "Bhagavad Gita 12.20"),
   ("sanskrit_verse", vs "ये तु धर्म्यामृतमिदं यथोक्तं पर्युपासते।\nश्रद्दधाना मत्परमा भक्तास्तेऽतीव मे प्रियाः॥"),
   ("english_translation", vs "Those who follow this eternal path of dharma with faith, regarding Me as their supreme goal, are very dear to Me."),
   ("guidance_text", vs "Meaninglessness is the soul\x27s cry for purpose. Krishna teaches that meaning isn\x27t found through analysis but through devotion and service. Stop searching and start serving. Help someone today, however small the act. Meaning accumulates in caring for others and connecting with the Divine. You don\x27t find purpose; you create it through love in action. Begin where you are.")]
]

/-- The literal `chapters` list from `startup_db` (server.py lines 863-1144): the 18 chapter documents. -/
def chapters : List Doc := [
  [("_id", vi 1),
   ("chapter_number", vi 1),
   ("name_english", vs "Arjuna\x27s Dilemma"),
   ("name_sanskrit", vs "अर्जुनविषादयोग (Arjuna Vishada Yoga)"),
   ("description", vs "The first chapter describes how Arjuna, overwhelmed by grief and moral confusion on the battlefield, refuses to fight."),
   ("key_teaching", vs "This chapter sets the stage for Krishna\x27s teachings by showing Arjuna\x27s spiritual crisis - a universal human experience of doubt and despair."),
   ("verses", BVal.arr [[("verse_number", Prim.pStr "1.30"), ("sanskrit", Prim.pStr "निमित्तानि च पश्यामि विपरीतानि केशव।"), ("english", Prim.pStr "I see omens of evil, O Krishna. I do not see any good in killing my kinsmen in battle.")]])],
  [("_id", vi 2),
   ("chapter_number", vi 2),
   ("name_english", vs "The Eternal Reality of the Soul"),
   ("name_sanskrit", vs "सांख्ययोग (Sankhya Yoga)"),
   ("description", vs "Krishna explains the eternal nature of the soul and introduces the concepts of dharma and karma yoga."),
   ("key_teaching", vs "The soul is eternal and indestructible. Focus on your duty without attachment to results."),
   ("verses", BVal.arr [[("verse_number", Prim.pStr "2.20"), ("sanskrit", Prim.pStr "न जायते म्रियते वा कदाचिन्नायं भूत्वा भविता वा न भूयः।"), ("english", Prim.pStr "The soul is never born and never dies. It is unborn, eternal, ever-existing, and primeval.")], [("verse_number", Prim.pStr "2.47"), ("sanskrit", Prim.pStr "कर्मण्येवाधिकारस्ते मा फलेषु कदाचन।"), ("english", Prim.pStr "You have the right to perform your duty, but you are not entitled to the fruits of your actions.")]])],
  [("_id", vi 3),
   ("chapter_number", vi 3),
   ("name_english", vs "Path of Action"),
   ("name_sanskrit", vs "कर्मयोग (Karma Yoga)"),
   ("description", vs "Krishna explains the importance of selfless action and performing one\x27s duty without desire for personal gain."),
   ("key_teaching", vs "Perform your duties as an offering to the Divine, without attachment to outcomes."),
   ("verses", BVal.arr [[("verse_number", Prim.pStr "3.19"), ("sanskrit", Prim.pStr "तस्मादसक्तः सततं कार्यं कर्म समाचर।"), ("english", Prim.pStr "Therefore, without attachment, constantly perform actions which are duty, for by performing actions without attachment, one attains the Supreme.")]])],
  [("_id", vi 4),
   ("chapter_number", vi 4),
   ("name_english", vs "Path of Knowledge"),
   ("name_sanskrit", vs "ज्ञानयोग (Jnana Yoga)"),
   ("description", vs "Krishna reveals the divine nature of his incarnations and the liberating power of spiritual knowledge."),
   ("key_teaching", vs "Knowledge of the true self and the divine nature destroys all karma and leads to liberation."),
   ("verses", BVal.arr [[("verse_number", Prim.pStr "4.7"), ("sanskrit", Prim.pStr "यदा यदा हि धर्मस्य ग्लानिर्भवति भारत।"), ("english", Prim.pStr "Whenever there is a decline in righteousness and rise in unrighteousness, O Arjuna, at that time I manifest myself on earth.")]])],
  [("_id", vi 5),
   ("chapter_number", vi 5),
   ("name_english", vs "Path of Renunciation"),
   ("name_sanskrit", vs "सन्न्यासयोग (Sannyasa Yoga)"),
   ("description", vs "Krishna explains that both renunciation and selfless service lead to liberation, but selfless service is superior."),
   ("key_teaching", vs "True renunciation is not abandoning action, but performing action without selfish desire."),
   ("verses", BVal.arr [[("verse_number", Prim.pStr "5.10"), ("sanskrit", Prim.pStr "ब्रह्मण्याधाय कर्माणि सङ्गं त्यक्त्वा करोति यः।"), ("english", Prim.pStr "One who performs their duty without attachment, surrendering results unto the Supreme, is unaffected by sin.")]])],
  [("_id", vi 6),
   ("chapter_number", vi 6),
   ("name_english", vs "Path of Meditation"),
   ("name_sanskrit", vs "ध्यानयोग (Dhyana Yoga)"),
   ("description", vs "Krishna describes the practice of meditation and the characteristics of a true yogi."),
   ("key_teaching", vs "Through meditation and self-control, one can achieve peace and ultimately unite with the Divine."),
   ("verses", BVal.arr [[("verse_number", Prim.pStr "6.5"), ("sanskrit", Prim.pStr "उद्धरेदात्मनात्मानं नात्मानमवसादयेत्।"), ("english", Prim.pStr "Elevate yourself through the power of your mind, and not degrade yourself, for the mind can be the friend and also the enemy of the self.")]])],
  [("_id", vi 7),
   ("chapter_number", vi 7),
   ("name_english", vs "Knowledge and Wisdom"),
   ("name_sanskrit", vs "ज्ञानविज्ञानयोग (Jnana Vijnana Yoga)"),
   ("description", vs "Krishna explains his divine nature and how he pervades all of creation."),
   ("key_teaching", vs "Understanding that God is both the material and spiritual essence of all existence."),
   ("verses", BVal.arr [[("verse_number", Prim.pStr "7.8"), ("sanskrit", Prim.pStr "रसोऽहमप्सु कौन्तेय प्रभास्मि शशिसूर्ययोः।"), ("english", Prim.pStr "I am the taste in water, O son of Kunti, and I am the light of the sun and moon.")]])],
  [("_id", vi 8),
   ("chapter_number", vi 8),
   ("name_english", vs "Path to the Supreme"),
   ("name_sanskrit", vs "अक्षरब्रह्मयोग (Aksara Brahma Yoga)"),
   ("description", vs "Krishna explains how to attain Him through constant remembrance, especially at the time of death."),
   ("key_teaching", vs "Whatever one remembers at the time of death, one attains that state."),
   ("verses", BVal.arr [[("verse_number", Prim.pStr "8.7"), ("sanskrit", Prim.pStr "तस्मात्सर्वेषु कालेषु मामनुस्मर युध्य च।"), ("english", Prim.pStr "Therefore, remember Me at all times and fight. With mind and intellect fixed on Me, you will surely come to Me.")]])],
  [("_id", vi 9),
   ("chapter_number", vi 9),
   ("name_english", vs "Royal Knowledge"),
   ("name_sanskrit", vs "राजविद्याराजगुह्ययोग (Raja Vidya Raja Guhya Yoga)"),
   ("description", vs "Krishna reveals the most confidential knowledge about devotion and His divine nature."),
   ("key_teaching", vs "God accepts even the smallest offering made with love and devotion."),
   ("verses", BVal.arr [[("verse_number", Prim.pStr "9.26"), ("sanskrit", Prim.pStr "पत्रं पुष्पं फलं तोयं यो मे भक्त्या प्रयच्छति।"), ("english", Prim.pStr "Whoever offers Me with devotion a leaf, a flower, a fruit, or water - I accept that offering of love from the pure-hearted.")]])],
  [("_id", vi 10),
   ("chapter_number", vi 10),
   ("name_english", vs "Divine Manifestations"),
   ("name_sanskrit", vs "विभूतियोग (Vibhuti Yoga)"),
   ("description", vs "Krishna describes His divine manifestations and how He pervades the entire universe."),
   ("key_teaching", vs "God is present in all that is excellent, powerful, and beautiful in creation."),
   ("verses", BVal.arr [[("verse_number", Prim.pStr "10.20"), ("sanskrit", Prim.pStr "अहमात्मा गुडाकेश सर्वभूताशयस्थितः।"), ("english", Prim.pStr "I am the Self, O Arjuna, seated in the hearts of all beings. I am the beginning, the middle, and also the end of all beings.")]])],
  [("_id", vi 11),
   ("chapter_number", vi 11),
   ("name_english", vs "Vision of the Universal Form"),
   ("name_sanskrit", vs "विश्वरूपदर्शनयोग (Vishvarupa Darshana Yoga)"),
   ("description", vs "Krishna reveals His cosmic form to Arjuna, showing the magnificence of the entire universe in His body."),
   ("key_teaching", vs "God encompasses all of existence - the creator, preserver, and destroyer of all."),
   ("verses", BVal.arr [[("verse_number", Prim.pStr "11.54"), ("sanskrit", Prim.pStr "भक्त्या त्वनन्यया शक्य अहमेवंविधोऽर्जुन।"), ("english", Prim.pStr "Only by undivided devotion can I be known and seen in this form, O Arjuna, and entered into.")]])],
  [("_id", vi 12),
   ("chapter_number", vi 12),
   ("name_english", vs "Path of Devotion"),
   ("name_sanskrit", vs "भक्तियोग (Bhakti Yoga)"),
   ("description", vs "Krishna explains that the path of devotion is the most direct way to reach Him."),
   ("key_teaching", vs "Devotion to God with love and surrender is the highest path."),
   ("verses", BVal.arr [[("verse_number", Prim.pStr "12.8"), ("sanskrit", Prim.pStr "मय्येव मन आधत्स्व मयि बुद्धिं निवेशय।"), ("english", Prim.pStr "Fix your mind on Me alone and let your intellect dwell upon Me. Thereafter you will live in Me without doubt.")]])],
  [("_id", vi 13),
   ("chapter_number", vi 13),
   ("name_english", vs "Field and Knower of the Field"),
   ("name_sanskrit", vs "क्षेत्रक्षेत्रज्ञविभागयोग (Kshetra Kshetrajna Vibhaga Yoga)"),
   ("description", vs "Krishna explains the distinction between the physical body (field) and the soul (knower of the field)."),
   ("key_teaching", vs "Understanding the difference between the body and the eternal soul is true knowledge."),
   ("verses", BVal.arr [[("verse_number", Prim.pStr "13.2"), ("sanskrit", Prim.pStr "क्षेत्रज्ञं चापि मां विद्धि सर्वक्षेत्रेषु भारत।"), ("english", Prim.pStr "Know Me to be the Knower of the field in all fields, O Arjuna. Knowledge of the field and its Knower is true knowledge.")]])],
  [("_id", vi 14),
   ("chapter_number", vi 14),
   ("name_english", vs "Three Modes of Nature"),
   ("name_sanskrit", vs "गुणत्रयविभागयोग (Gunatraya Vibhaga Yoga)"),
   ("description", vs "Krishna explains the three gunas (modes of nature): sattva (goodness), rajas (passion), and tamas (ignorance)."),
   ("key_teaching", vs "Understanding the three gunas helps one transcend material nature and attain liberation."),
   ("verses", BVal.arr [[("verse_number", Prim.pStr "14.5"), ("sanskrit", Prim.pStr "सत्त्वं रजस्तम इति गुणाः प्रकृतिसम्भवाः।"), ("english", Prim.pStr "Goodness, passion, and ignorance - these three modes born of nature bind the eternal soul to the body.")]])],
  [("_id", vi 15),
   ("chapter_number", vi 15),
   ("name_english", vs "The Supreme Person"),
   ("name_sanskrit", vs "पुरुषोत्तमयोग (Purushottama Yoga)"),
   ("description", vs "Krishna describes the imperishable tree of material existence and how to attain the supreme abode."),
   ("key_teaching", vs "God is beyond both the perishable and imperishable, the Supreme Person who sustains all."),
   ("verses", BVal.arr [[("verse_number", Prim.pStr "15.7"), ("sanskrit", Prim.pStr "ममैवांशो जीवलोके जीवभूतः सनातनः।"), ("english", Prim.pStr "The living entities in this world are My eternal fragmented parts, but bound by material nature, they struggle with the six senses including the mind.")]])],
  [("_id", vi 16),
   ("chapter_number", vi 16),
   ("name_english", vs "Divine and Demonic Natures"),
   ("name_sanskrit", vs "दैवासुरसम्पद्विभागयोग (Daivasura Sampad Vibhaga Yoga)"),
   ("description", vs "Krishna contrasts divine and demonic qualities, explaining which lead to liberation and which to bondage."),
   ("key_teaching", vs "Cultivate divine qualities like truthfulness, compassion, and humility; avoid demonic qualities like pride, anger, and arrogance."),
   ("verses", BVal.arr [[("verse_number", Prim.pStr "16.3"), ("sanskrit", Prim.pStr "तेजः क्षमा धृतिः शौचमद्रोहो नातिमानिता।"), ("english", Prim.pStr "Vigor, forgiveness, fortitude, purity, absence of hatred, and absence of pride - these are the qualities of those endowed with divine nature.")]])],
  [("_id", vi 17),
   ("chapter_number", vi 17),
   ("name_english", vs "Three Divisions of Faith"),
   ("name_sanskrit", vs "श्रद्धात्रयविभागयोग (Shraddhatraya Vibhaga Yoga)"),
   ("description", vs "Krishna explains how faith manifests according to one\x27s nature and the three types of faith."),
   ("key_teaching", vs "Faith aligned with goodness leads to divinity; faith in passion or ignorance leads to bondage."),
   ("verses", BVal.arr [[("verse_number", Prim.pStr "17.3"), ("sanskrit", Prim.pStr "सत्त्वानुरूपा सर्वस्य श्रद्धा भवति भारत।"), ("english", Prim.pStr "The faith of all beings conforms to their mental disposition, O Arjuna. A person is known by the faith they hold.")]])],
  [("_id", vi 18),
   ("chapter_number", vi 18),
   ("name_english", vs "Liberation through Renunciation"),
   ("name_sanskrit", vs "मोक्षसंन्यासयोग (Moksha Sannyasa Yoga)"),
   ("description", vs "The final chapter summarizes all the teachings and emphasizes complete surrender to God."),
   ("key_teaching", vs "Surrender all actions to God, perform your duty without attachment, and you will attain liberation."),
   ("verses", BVal.arr [[("verse_number", Prim.pStr "18.66"), ("sanskrit", Prim.pStr "सर्वधर्मान्परित्यज्य मामेकं शरणं व्रज।"), ("english", Prim.pStr "Abandon all varieties of dharma and just surrender unto Me. I shall deliver you from all sinful reactions. Do not fear.")], [("verse_number", Prim.pStr "18.78"), ("sanskrit", Prim.pStr "यत्र योगेश्वरः कृष्णो यत्र पार्थो धनुर्धरः।"), ("english", Prim.pStr "Wherever there is Krishna, the Lord of Yoga, and Arjuna, the wielder of the bow, there will be fortune, victory, prosperity, and morality.")]])]
]

/-- The document store: the four collections used by the service, each a
list of documents in natural (insertion) order. -/
structure Store where
  emotions : List Doc
  moods : List Doc
  guidances : List Doc
  chapters : List Doc
deriving DecidableEq

/-- Embedding of the seed reconciler `startup_db` (server.py lines 76-90 and
1146-1156): clear emotions, moods and guidances; count the chapter documents;
bulk-insert the canonical emotion, mood and guidance sets; insert the
canonical chapter set only when the chapter count was zero. -/
def startup_db (s : Store) : Store :=
  let s1 : Store := { s with emotions := [], moods := [], guidances := [] }
  let existing_chapters : Nat := s1.chapters.length
  let s2 : Store := { s1 with
    emotions := s1.emotions ++ Shloka.emotions,
    moods := s1.moods ++ Shloka.moods,
    guidances := s1.guidances ++ Shloka.guidances }
  if existing_chapters = 0 then { s2 with chapters := s2.chapters ++ Shloka.chapters }
  else s2

/-- An HTTP 404-style error raised by a handler (`HTTPException`). -/
structure HTTPError where
  status_code : Nat
  detail : String
deriving DecidableEq

/-- Embedding of `get_emotions` (server.py lines 1163-1167). -/
def get_emotions (s : Store) : List Doc :=
  (toList 100 s.emotions).map str_id_doc

/-- Embedding of `get_moods` (server.py lines 1169-1175): find the moods of
the given emotion, 404 when the (capped) result list is falsy (empty). -/
def get_moods (s : Store) (emotion_id : String) : Except HTTPError (List Doc) :=
  let ms := toList 100 (findAll s.moods "emotion_id" (vs emotion_id))
  if ms.isEmpty then Except.error ⟨404, "No moods found for this emotion"⟩
  else Except.ok (ms.map str_id_doc)

/-- Embedding of `get_guidance` (server.py lines 1177-1183): find one
guidance for the mood; `if not guidance` is true both for `None` (no match)
and for a falsy (empty) document, and both raise the 404. -/
def get_guidance (s : Store) (mood_id : String) : Except HTTPError Doc :=
  match findOne s.guidances "mood_id" (vs mood_id) with
  | none => Except.error ⟨404, "Guidance not found for this mood"⟩
  | some g =>
    if g.isEmpty then Except.error ⟨404, "Guidance not found for this mood"⟩
    else Except.ok (str_id_doc g)

/-- Embedding of `get_chapters` (server.py lines 1185-1189). -/
def get_chapters (s : Store) : List Doc :=
  (toList 100 (sortByKey "chapter_number" s.chapters)).map str_id_doc

/-- Embedding of `get_chapter` (server.py lines 1191-1197). -/
def get_chapter (s : Store) (chapter_number : Int) : Except HTTPError Doc :=
  match findOne s.chapters "chapter_number" (vi chapter_number) with
  | none => Except.error ⟨404, "Chapter not found"⟩
  | some c =>
    if c.isEmpty then Except.error ⟨404, "Chapter not found"⟩
    else Except.ok (str_id_doc c)


/-- The empty store: a fresh deployment, nothing seeded yet. -/
def emptyStore : Store := { emotions := [], moods := [], guidances := [], chapters := [] }

/-- The canonical fully seeded store. -/
def seededStore : Store :=
  { emotions := Shloka.emotions, moods := Shloka.moods,
    guidances := Shloka.guidances, chapters := Shloka.chapters }

/-- Characterization of one reconciler run: the three cleared collections end
up exactly canonical, and the chapter collection is replaced by the canonical
set when it was empty and is kept unchanged otherwise. -/
theorem startup_db_spec (s : Store) :
    startup_db s =
      { emotions := Shloka.emotions, moods := Shloka.moods, guidances := Shloka.guidances,
        chapters := if s.chapters.length = 0 then Shloka.chapters else s.chapters } := by
  unfold startup_db
  by_cases h : s.chapters.length = 0
  · simp [h, List.length_eq_zero.mp h]
  · simp [h]

/-- There are 18 canonical chapter documents. -/
theorem chapters_length : Shloka.chapters.length = 18 := rfl

/-- Number of guidance documents whose `mood_id` field equals the given value. -/
def guidanceCountFor (s : Store) (moodId : BVal) : Nat :=
  (findAll s.guidances "mood_id" moodId).length

/-- The mood has exactly one guidance document keyed to its `_id`. -/
def moodHasUniqueGuidance (s : Store) (m : Doc) : Bool :=
  match getField m "_id" with
  | some mid => guidanceCountFor s mid == 1
  | none => false

/-- The parent emotion referenced by the mood exists in the store. -/
def moodEmotionResolves (s : Store) (m : Doc) : Bool :=
  match getField m "emotion_id" with
  | some eid => s.emotions.any (fun e => getField e "_id" == some eid)
  | none => false

/-- The `chapter_number` values of a chapter collection, in order. -/
def chapterNums (c : List Doc) : List (Option BVal) :=
  c.map (fun d => getField d "chapter_number")

/-- The canonical chapter numbers 1..18, ascending. -/
def canonicalChapterNums : List (Option BVal) :=
  (List.range 18).map (fun i => some (vi (Int.ofNat i + 1)))

/-- The chapter collection contains all 18 canonical chapters, and its
`chapter_number` values are exactly 1..18 with no duplicates. -/
def chaptersCanonicalCoverage (c : List Doc) : Prop :=
  (∀ ch ∈ Shloka.chapters, ch ∈ c) ∧ (chapterNums c).Perm canonicalChapterNums

/-- The postcondition C1 claims for the seed reconciler. -/
def reconcilerPost (s : Store) : Prop :=
  (∀ m ∈ s.moods, moodHasUniqueGuidance s m = true) ∧
  (∀ m ∈ s.moods, moodEmotionResolves s m = true) ∧
  chaptersCanonicalCoverage s.chapters

instance (c : List Doc) : Decidable (chaptersCanonicalCoverage c) := by
  unfold chaptersCanonicalCoverage; infer_instance

instance (s : Store) : Decidable (reconcilerPost s) := by
  unfold reconcilerPost; infer_instance

/-- A prior store whose chapter collection is non-empty but not canonical. -/
def junkChapterStore : Store :=
  { emotions := [], moods := [], guidances := [],
    chapters := [[("_id", vi 99), ("chapter_number", vi 99)]] }

/-- C1 (counterexample): starting from a prior state whose chapter collection
is non-empty but not canonical, the reconciler leaves it untouched, so the
claimed postcondition (chapter numbers exactly 1..18) fails after the run. -/
theorem c1_postcondition_counterexample : ¬ reconcilerPost (startup_db junkChapterStore) := by
  decide

/-- `moodHasUniqueGuidance` reads only the guidance collection of the store. -/
theorem moodHasUniqueGuidance_congr (s t : Store) (m : Doc) (h : s.guidances = t.guidances) :
    moodHasUniqueGuidance s m = moodHasUniqueGuidance t m := by
  unfold moodHasUniqueGuidance guidanceCountFor findAll
  rw [h]

/-- `moodEmotionResolves` reads only the emotion collection of the store. -/
theorem moodEmotionResolves_congr (s t : Store) (m : Doc) (h : s.emotions = t.emotions) :
    moodEmotionResolves s m = moodEmotionResolves t m := by
  unfold moodEmotionResolves
  rw [h]

/-- C1 (amended): after a successful reconciler run from any prior store
state, every mood in the store has exactly one guidance keyed to its `_id`
and a resolving parent emotion; the chapter collection has all 18 canonical
chapters with numbers exactly 1..18 and no duplicates provided the prior
chapter collection was empty or already exactly canonical. -/
theorem c1_postcondition_amended (s : Store) :
    (∀ m ∈ (startup_db s).moods, moodHasUniqueGuidance (startup_db s) m = true) ∧
    (∀ m ∈ (startup_db s).moods, moodEmotionResolves (startup_db s) m = true) ∧
    (s.chapters = [] ∨ s.chapters = Shloka.chapters →
      chaptersCanonicalCoverage (startup_db s).chapters) := by
  have hem : (startup_db s).emotions = seededStore.emotions := by rw [startup_db_spec]; rfl
  have hmo : (startup_db s).moods = seededStore.moods := by rw [startup_db_spec]; rfl
  have hgu : (startup_db s).guidances = seededStore.guidances := by rw [startup_db_spec]; rfl
  refine ⟨?_, ?_, ?_⟩
  · intro m hm
    rw [moodHasUniqueGuidance_congr (startup_db s) seededStore m hgu]
    rw [hmo] at hm
    exact (by decide : ∀ m ∈ seededStore.moods, moodHasUniqueGuidance seededStore m = true) m hm
  · intro m hm
    rw [moodEmotionResolves_congr (startup_db s) seededStore m hem]
    rw [hmo] at hm
    exact (by decide : ∀ m ∈ seededStore.moods, moodEmotionResolves seededStore m = true) m hm
  · intro h
    have hs : (startup_db s).chapters = seededStore.chapters := by
      rw [startup_db_spec]
      rcases h with h | h <;> rw [h] <;> rfl
    rw [hs]
    exact (by decide : chaptersCanonicalCoverage seededStore.chapters)

/-- C1 (witness): the chapter clause of the amended postcondition discharged
at the fresh empty store. -/
theorem c1_postcondition_amended_witness :
    (emptyStore.chapters = [] ∨ emptyStore.chapters = Shloka.chapters) ∧
    chaptersCanonicalCoverage (startup_db emptyStore).chapters :=
  ⟨Or.inl rfl, (c1_postcondition_amended emptyStore).2.2 (Or.inl rfl)⟩

/-- C2: the reconciler is idempotent — running `startup_db` twice from any
initial store leaves every collection identical to running it once. -/
theorem c2_reconciler_idempotent (s : Store) :
    startup_db (startup_db s) = startup_db s := by
  rw [startup_db_spec s, startup_db_spec]
  by_cases h : s.chapters.length = 0 <;> simp [h, chapters_length]

/-- C3: the reconciler implements the selective variant — emotions, moods and
guidances are unconditionally replaced by the canonical sets, while chapters
are seeded exactly when the prior chapter count is zero and untouched
otherwise. -/
theorem c3_selective_variant (s : Store) :
    (startup_db s).emotions = Shloka.emotions ∧
    (startup_db s).moods = Shloka.moods ∧
    (startup_db s).guidances = Shloka.guidances ∧
    (s.chapters.length = 0 → (startup_db s).chapters = Shloka.chapters) ∧
    (s.chapters.length ≠ 0 → (startup_db s).chapters = s.chapters) := by
  rw [startup_db_spec]
  refine ⟨rfl, rfl, rfl, fun h => ?_, fun h => ?_⟩
  · simp [h]
  · simp [h]

/-- C3 (witness): on the empty store the chapter count is zero and the
canonical chapter set is inserted. -/
theorem c3_selective_variant_witness :
    emptyStore.chapters.length = 0 ∧ (startup_db emptyStore).chapters = Shloka.chapters :=
  ⟨rfl, (c3_selective_variant emptyStore).2.2.2.1 rfl⟩

/-- `get_moods` reads only the mood collection of the store. -/
theorem get_moods_congr (s t : Store) (p : String) (h : s.moods = t.moods) :
    get_moods s p = get_moods t p := by
  unfold get_moods; rw [h]

/-- `get_chapters` reads only the chapter collection of the store. -/
theorem get_chapters_congr (s t : Store) (h : s.chapters = t.chapters) :
    get_chapters s = get_chapters t := by
  unfold get_chapters; rw [h]

/-- C4 (counterexample): on the store seeded from a fresh deployment,
GET /moods/fear returns 6 mood records, not 3 as claimed. -/
theorem c4_fear_moods_counterexample :
    ¬ ∃ l, get_moods (startup_db emptyStore) "fear" = Except.ok l ∧ l.length = 3 := by
  rintro ⟨l, hl, hlen⟩
  have h6 : Except.map List.length (get_moods (startup_db emptyStore) "fear") =
      Except.ok 6 := rfl
  rw [hl] at h6
  have h7 : l.length = 6 := Except.ok.inj h6
  omega

/-- C4 (amended): on the store produced by the seed reconciler from any prior
state, GET /moods/fear succeeds (status 200) with exactly 6 mood records,
each with emotion_id equal to "fear". -/
theorem c4_fear_moods_amended (s : Store) :
    ∃ l, get_moods (startup_db s) "fear" = Except.ok l ∧ l.length = 6 ∧
      ∀ m ∈ l, getField m "emotion_id" = some (vs "fear") := by
  have h : get_moods (startup_db s) "fear" = get_moods seededStore "fear" :=
    get_moods_congr _ _ _ (by rw [startup_db_spec]; rfl)
  rw [h]
  exact ⟨(toList 100 (findAll Shloka.moods "emotion_id" (vs "fear"))).map str_id_doc,
    rfl, by decide, by decide⟩

/-- The mood documents of a store matching an emotion id. -/
def matchingMoods (s : Store) (emotion_id : String) : List Doc :=
  findAll s.moods "emotion_id" (vs emotion_id)

/-- A store holding 101 mood documents that all reference one emotion. -/
def manyMoodsStore : Store :=
  { emotions := [], guidances := [], chapters := [],
    moods := (List.range 101).map (fun k => [("_id", vi (Int.ofNat k)), ("emotion_id", vs "e")]) }

/-- C5 (counterexample): with 101 matching mood documents in the store, the
handler returns only 100 of them, so it does not return exactly the matching
records. -/
theorem c5_moods_counterexample :
    ¬ ∃ l, get_moods manyMoodsStore "e" = Except.ok l ∧
        l.length = (matchingMoods manyMoodsStore "e").length := by
  rintro ⟨l, hl, hlen⟩
  have h100 : Except.map List.length (get_moods manyMoodsStore "e") = Except.ok 100 := rfl
  rw [hl] at h100
  have h7 : l.length = 100 := Except.ok.inj h100
  have h101 : (matchingMoods manyMoodsStore "e").length = 101 := rfl
  omega

/-- C5 (amended): for every store state and parameter, GET /moods fails with
the 404 error exactly when no mood record matches the parameter (unknown
emotion and moodless emotion are indistinguishable); otherwise it returns,
with status 200, the first at most 100 matching mood records,
identifier-normalized. -/
theorem c5_moods_lookup_amended (s : Store) (emotion_id : String) :
    (get_moods s emotion_id = Except.error ⟨404, "No moods found for this emotion"⟩ ↔
      matchingMoods s emotion_id = []) ∧
    (matchingMoods s emotion_id ≠ [] →
      get_moods s emotion_id =
        Except.ok ((toList 100 (matchingMoods s emotion_id)).map str_id_doc)) := by
  unfold get_moods matchingMoods toList
  by_cases h : findAll s.moods "emotion_id" (vs emotion_id) = []
  · rw [h]; simp
  · have hne : ((findAll s.moods "emotion_id" (vs emotion_id)).take 100).isEmpty = false := by
      rw [Bool.eq_false_iff]
      intro hemp
      rcases List.take_eq_nil_iff.mp (List.isEmpty_iff.mp hemp) with h0 | h0
      · exact absurd h0 (by decide)
      · exact h h0
    simp [hne, h]

/-- C5 (witness): the amended lookup behavior at the seeded store and the
emotion "fear". -/
theorem c5_moods_lookup_amended_witness :
    matchingMoods seededStore "fear" ≠ [] ∧
    get_moods seededStore "fear" =
      Except.ok ((toList 100 (matchingMoods seededStore "fear")).map str_id_doc) :=
  ⟨by decide, (c5_moods_lookup_amended seededStore "fear").2 (by decide)⟩

/-- The guidance documents of a store matching a mood id. -/
def matchingGuidances (s : Store) (mood_id : String) : List Doc :=
  findAll s.guidances "mood_id" (vs mood_id)

/-- C6: for every store state and parameter, GET /guidance fails with the 404
error exactly when no guidance record has the given mood_id, and returns that
record (status 200, identifier-normalized) when it is the unique match. -/
theorem c6_guidance_lookup (s : Store) (mood_id : String) :
    (get_guidance s mood_id = Except.error ⟨404, "Guidance not found for this mood"⟩ ↔
      matchingGuidances s mood_id = []) ∧
    (∀ g, matchingGuidances s mood_id = [g] →
      get_guidance s mood_id = Except.ok (str_id_doc g)) := by
  unfold get_guidance findOne matchingGuidances
  cases hfa : findAll s.guidances "mood_id" (vs mood_id) with
  | nil => simp
  | cons g gs =>
    have hmem : g ∈ List.filter (fun d => matchesField d "mood_id" (vs mood_id)) s.guidances := by
      rw [show List.filter (fun d => matchesField d "mood_id" (vs mood_id)) s.guidances
            = g :: gs from hfa]
      exact List.mem_cons_self g gs
    have hg : matchesField g "mood_id" (vs mood_id) = true := (List.mem_filter.mp hmem).2
    have hgne : g.isEmpty = false := by
      cases g with
      | nil => simp [matchesField, getField] at hg
      | cons _ _ => rfl
    simp only [List.head?, hgne, Bool.false_eq_true, if_false]
    constructor
    · constructor
      · intro habs; exact absurd habs (by simp)
      · intro habs; exact absurd habs (by simp)
    · rintro g2 heq
      have : g = g2 ∧ gs = [] := by simpa using heq
      rw [this.1]

/-- C6 (witness): the guidance lookup for the mood "fear_future" on the
seeded store returns its unique guidance record, the first document of the
canonical guidance set. -/
theorem c6_guidance_lookup_witness :
    matchingGuidances seededStore "fear_future" = [Shloka.guidances.headI] ∧
    get_guidance seededStore "fear_future" = Except.ok (str_id_doc Shloka.guidances.headI) :=
  ⟨by decide, (c6_guidance_lookup seededStore "fear_future").2 Shloka.guidances.headI (by decide)⟩

/-- C7: on the store produced by a reconciler run from a fresh deployment
(empty chapter collection), GET /chapters returns all 18 canonical chapter
records sorted ascending by chapter_number, whose values are exactly 1..18 —
no gaps, no duplicates. -/
theorem c7_chapters_sorted (s : Store) (h : s.chapters = []) :
    get_chapters (startup_db s) = Shloka.chapters ∧
    chapterNums (get_chapters (startup_db s)) = canonicalChapterNums := by
  have hc : get_chapters (startup_db s) = get_chapters seededStore := by
    apply get_chapters_congr
    rw [startup_db_spec, h]
    rfl
  rw [hc]
  exact ⟨by decide, by decide⟩

/-- C7 (witness): the chapter listing behavior on the store seeded from the
empty store. -/
theorem c7_chapters_sorted_witness :
    get_chapters (startup_db emptyStore) = Shloka.chapters ∧
    chapterNums (get_chapters (startup_db emptyStore)) = canonicalChapterNums :=
  c7_chapters_sorted emptyStore rfl

/-- The `_id` value is a simple scalar in the sense of `str_id`: a Python
int or str (`isinstance(obj[...], (int, str))`). -/
def isScalarId : BVal → Bool
  | BVal.prim (Prim.pStr _) => true
  | BVal.prim (Prim.pInt _) => true
  | _ => false

/-- A document is non-empty as soon as some field lookup succeeds. -/
theorem isEmpty_false_of_getField (d : Doc) (key : String) (v : BVal)
    (h : getField d key = some v) : d.isEmpty = false := by
  cases d with
  | nil => simp [getField] at h
  | cons _ _ => rfl

/-- C8: on any record carrying an `_id` field, `str_id` leaves the record
unchanged whenever the `_id` value is already a string or an integer, and
replaces the `_id` with its string representation in every other case. -/
theorem c8_str_id_normalization (d : Doc) (v : BVal) (h : getField d "_id" = some v) :
    (isScalarId v = true → str_id_doc d = d) ∧
    (isScalarId v = false → str_id_doc d = setField d "_id" (vs (pyStr v))) := by
  have hne : d.isEmpty = false := isEmpty_false_of_getField d "_id" v h
  cases v with
  | prim p =>
    cases p with
    | pStr t => exact ⟨fun _ => by simp [str_id_doc, hasField, h, hne],
        fun hf => by simp [isScalarId] at hf⟩
    | pInt n => exact ⟨fun _ => by simp [str_id_doc, hasField, h, hne],
        fun hf => by simp [isScalarId] at hf⟩
    | pOid o => exact ⟨fun ht => by simp [isScalarId] at ht,
        fun _ => by simp [str_id_doc, hasField, h, hne]⟩
  | arr ds => exact ⟨fun ht => by simp [isScalarId] at ht,
      fun _ => by simp [str_id_doc, hasField, h, hne]⟩

/-- A record whose `_id` is a store-generated ObjectId rather than a scalar
assigned at seed time. -/
def docOid : Doc := [("_id", BVal.prim (Prim.pOid "650f1f77bcf86cd799439011")), ("k", vs "v")]

/-- C8 (witness): `str_id` stringifies an ObjectId identifier. -/
theorem c8_str_id_normalization_witness :
    getField docOid "_id" = some (BVal.prim (Prim.pOid "650f1f77bcf86cd799439011")) ∧
    str_id_doc docOid =
      setField docOid "_id" (vs (pyStr (BVal.prim (Prim.pOid "650f1f77bcf86cd799439011")))) :=
  ⟨rfl, (c8_str_id_normalization docOid _ rfl).2 rfl⟩

/-- C9: every list-returning handler truncates its result at 100 documents,
for every store state and path parameter — the cap is not specific to
GET /emotions. -/
theorem c9_handlers_capped (s : Store) (emotion_id : String) :
    (get_emotions s).length ≤ 100 ∧
    (∀ l, get_moods s emotion_id = Except.ok l → l.length ≤ 100) ∧
    (get_chapters s).length ≤ 100 := by
  refine ⟨?_, ?_, ?_⟩
  · unfold get_emotions toList
    rw [List.length_map, List.length_take]
    omega
  · intro l hl
    unfold get_moods toList at hl
    by_cases hemp : ((findAll s.moods "emotion_id" (vs emotion_id)).take 100).isEmpty = true
    · rw [if_pos hemp] at hl
      exact Except.noConfusion hl
    · rw [if_neg hemp] at hl
      rw [← Except.ok.inj hl, List.length_map, List.length_take]
      omega
  · unfold get_chapters toList
    rw [List.length_map, List.length_take]
    omega

/-- C9 (witness): the cap discharged on the seeded store for GET /moods/fear. -/
theorem c9_handlers_capped_witness :
    get_moods seededStore "fear" =
      Except.ok ((toList 100 (findAll Shloka.moods "emotion_id" (vs "fear"))).map str_id_doc) ∧
    ((toList 100 (findAll Shloka.moods "emotion_id" (vs "fear"))).map str_id_doc).length ≤ 100 :=
  ⟨rfl, (c9_handlers_capped seededStore "fear").2.1 _ rfl⟩

/-- `setField` never changes the value read at a different key. -/
theorem getField_setField_ne (d : Doc) (key k : String) (v : BVal) (hk : k ≠ key) :
    getField (setField d key v) k = getField d k := by
  induction d with
  | nil => simp [setField, getField, (hk.symm : key ≠ k)]
  | cons kv rest ih =>
    obtain ⟨k0, w⟩ := kv
    by_cases h0 : k0 = key
    · subst h0
      by_cases h1 : k0 = k
      · exact absurd h1.symm hk
      · simp [setField, getField, h1]
    · by_cases h1 : k0 = k
      · simp [setField, getField, h0, h1, hk]
      · simp [setField, getField, h0, h1, ih]

/-- When the key is already present, `setField` preserves the ordered list of
field names. -/
theorem keys_setField (d : Doc) (key : String) (v : BVal) (h : hasField d key = true) :
    (setField d key v).map Prod.fst = d.map Prod.fst := by
  induction d with
  | nil => simp [hasField, getField] at h
  | cons kv rest ih =>
    obtain ⟨k0, w⟩ := kv
    by_cases h0 : k0 = key
    · subst h0; simp [setField]
    · have hrest : hasField rest key = true := by
        simpa [hasField, getField, h0] using h
      simp [setField, h0, ih hrest]

/-- C10: `str_id` is total on its interface and touches only the identifier:
`None` maps to `None`, a record without an `_id` key is returned unchanged,
and no field other than `_id` is modified, added or removed. -/
theorem c10_str_id_frame (d : Doc) (k : String) :
    str_id none = none ∧
    (hasField d "_id" = false → str_id_doc d = d) ∧
    (k ≠ "_id" → getField (str_id_doc d) k = getField d k) ∧
    (str_id_doc d).map Prod.fst = d.map Prod.fst := by
  refine ⟨rfl, fun hno => ?_, ?_, ?_⟩
  · simp [str_id_doc, hno]
  all_goals
    cases hgf : getField d "_id" with
    | none =>
      have hno : hasField d "_id" = false := by simp [hasField, hgf]
      simp [str_id_doc, hno]
    | some v =>
      have hne : d.isEmpty = false := isEmpty_false_of_getField d "_id" v hgf
      have hyes : hasField d "_id" = true := by simp [hasField, hgf]
      cases v with
      | prim p =>
        cases p with
        | pStr t => simp [str_id_doc, hasField, hgf, hne]
        | pInt n => simp [str_id_doc, hasField, hgf, hne]
        | pOid o =>
          simp only [str_id_doc, hasField, hgf, hne, Option.isSome_some, Bool.not_false,
            Bool.and_self, if_true]
          first
          | exact fun hk => getField_setField_ne d "_id" k _ hk
          | exact keys_setField d "_id" _ hyes
      | arr ds =>
        simp only [str_id_doc, hasField, hgf, hne, Option.isSome_some, Bool.not_false,
          Bool.and_self, if_true]
        first
        | exact fun hk => getField_setField_ne d "_id" k _ hk
        | exact keys_setField d "_id" _ hyes

/-- C10 (witness): the frame condition at a record with an ObjectId `_id`
and a second field "k". -/
theorem c10_str_id_frame_witness :
    ("k" : String) ≠ "_id" ∧ getField (str_id_doc docOid) "k" = getField docOid "k" :=
  ⟨by decide, (c10_str_id_frame docOid "k").2.2.1 (by decide)⟩

end Shloka
